import Mathlib

/-!
Verification of the selene market-data pipeline.

This file gives a shallow embedding of the core fetch → map → validate →
persist pipeline of the repository (the `MarketData` entity, the
`SafeDataMapper`, the `MarketDataService` orchestrator and the
`FetchMarketDataUseCase`) and proves properties of the embedded code.

Modelling conventions:
* Python `Decimal` and `float` values are modelled by `Dec`, an exact
  fixed-point number `m · 10^e` — the internal form of `Decimal` itself
  (exact for the finite decimal literals the pipeline handles; binary
  rounding of `float` and `inf`/`nan` are outside the model).
* Python `datetime` values are modelled symbolically by `PyDateTime`:
  a calendar value, an epoch-derived value, or the capture-time `now`.
* Python exceptions are modelled by `PyExc` (a class tag plus message);
  fallible calls return `Except PyExc α`.
* Python dictionaries are association lists with first-match lookup.
* `str.upper`, `str.strip` and numeric/date parsing are modelled for the
  ASCII fragment the repository's data uses.
-/

/-- Exception class tags. `valueError`, `keyError`, `runtimeError` and
`ioError` are the classes caught by `fetch_and_store_market_data`;
`invalidOperation`, `typeError` and `overflowError` arise inside the mapper;
`otherExc` stands for any further class (e.g. `AttributeError`). -/
inductive ExcKind where
  | valueError
  | keyError
  | runtimeError
  | ioError
  | typeError
  | invalidOperation
  | overflowError
  | otherExc
deriving DecidableEq

/-- A Python exception: its class tag and its `str(e)` message. -/
structure PyExc where
  kind : ExcKind
  msg : String
deriving DecidableEq

/-- Exact decimal fixed-point number with value `m · 10^e`, the form in
which Python `Decimal` stores values (`float` values are modelled by the
decimal value of their literal). -/
structure Dec where
  m : Int
  e : Int
deriving DecidableEq

/-- Comparison `a ≤ b` of two `Dec` values, by bringing both to the
smaller exponent. -/
def Dec.ble (a b : Dec) : Bool :=
  let k := min a.e b.e
  a.m * 10 ^ (a.e - k).toNat ≤ b.m * 10 ^ (b.e - k).toNat

/-- Value equality of two `Dec` values (Python `==` on `Decimal`). -/
def Dec.beq (a b : Dec) : Bool :=
  a.ble b && b.ble a

/-- Zero test (Python truthiness of a numeric value). -/
def Dec.isZero (d : Dec) : Bool :=
  d.m = 0

/-- Truncation toward zero, as Python `int(...)` does on a number. -/
def Dec.trunc (d : Dec) : Int :=
  if 0 ≤ d.e then d.m * 10 ^ d.e.toNat else Int.tdiv d.m (10 ^ (-d.e).toNat)

/-- The literal `Decimal("0.00")` used as the mapper's price default. -/
def dec00 : Dec := ⟨0, -2⟩

/-- Symbolic model of a Python `datetime` value: a calendar date-time as
produced by `datetime.strptime`, an epoch-derived value as produced by
`datetime.fromtimestamp`, or the ambient `datetime.now()` capture time. -/
inductive PyDateTime where
  | ymd (year month day hour minute second usec : Nat)
  | fromEpoch (seconds : Dec)
  | now
deriving DecidableEq

/-- Model of the Python values that flow through the mapper: `None`,
booleans, ints, floats, `Decimal`s, strings, `datetime`s and (nested)
dictionaries. -/
inductive PyVal where
  | none
  | bool (b : Bool)
  | int (n : Int)
  | float (d : Dec)
  | decimal (d : Dec)
  | str (s : String)
  | datetime (dt : PyDateTime)
  | dict (entries : List (String × PyVal))

/-- A Python dictionary payload: an association list with unique keys and
first-match lookup. -/
def PyDict := List (String × PyVal)

/-- Lookup `d[k]`: the first entry with key `k`. -/
def dictFind (d : PyDict) (k : String) : Option PyVal :=
  match d with
  | [] => Option.none
  | (k', v) :: rest => if k' = k then Option.some v else dictFind rest k

/-- Membership test `k in d`. -/
def dictContains (d : PyDict) (k : String) : Bool :=
  match d with
  | [] => false
  | (k', _) :: rest => k' = k || dictContains rest k

/-- Python truthiness (`bool(v)`) restricted to the modelled values:
`None`, `False`, numeric zero, the empty string and the empty dict are
falsy; `datetime` values are always truthy. -/
def PyVal.falsy : PyVal → Bool
  | .none => true
  | .bool b => !b
  | .int n => n = 0
  | .float d => d.isZero
  | .decimal d => d.isZero
  | .str s => s = ""
  | .datetime _ => false
  | .dict d => d.isEmpty

/-- Whitespace characters stripped by Python `str.strip()` (the ASCII
whitespace set, vertical tab and form feed included). -/
def pyWS (c : Char) : Bool :=
  c = ' ' || c = '\t' || c = '\n' || c = '\r' || c = '\x0b' || c = '\x0c'

/-- Strip leading and trailing whitespace from a character list. -/
def stripChars (l : List Char) : List Char :=
  ((l.dropWhile pyWS).reverse.dropWhile pyWS).reverse

/-- Model of Python `str.strip()`. -/
def pyStrip (s : String) : String :=
  ⟨stripChars s.data⟩

/-- ASCII upper-casing of one character, as Python `str.upper` does on the
ASCII range (written out explicitly). -/
def upperChar (c : Char) : Char :=
  match c with
  | 'a' => 'A' | 'b' => 'B' | 'c' => 'C' | 'd' => 'D' | 'e' => 'E'
  | 'f' => 'F' | 'g' => 'G' | 'h' => 'H' | 'i' => 'I' | 'j' => 'J'
  | 'k' => 'K' | 'l' => 'L' | 'm' => 'M' | 'n' => 'N' | 'o' => 'O'
  | 'p' => 'P' | 'q' => 'Q' | 'r' => 'R' | 's' => 'S' | 't' => 'T'
  | 'u' => 'U' | 'v' => 'V' | 'w' => 'W' | 'x' => 'X' | 'y' => 'Y'
  | 'z' => 'Z'
  | c => c

/-- Model of Python `str.upper()` (ASCII fragment). -/
def pyUpper (s : String) : String :=
  ⟨s.data.map upperChar⟩

/-- Digits of a character list read as a natural number (assumes digits). -/
def digitsToNat (l : List Char) : Nat :=
  l.foldl (fun a c => a * 10 + (c.toNat - 48)) 0

/-- Split a character list at every occurrence of `sep`. -/
def splitChars (sep : Char) : List Char → List (List Char)
  | [] => [[]]
  | c :: rest =>
    match splitChars sep rest with
    | [] => [[]]
    | cur :: parts =>
      if c = sep then [] :: cur :: parts else (c :: cur) :: parts

/-- Check that a character list is a nonempty run of decimal digits. -/
def allDigits (l : List Char) : Bool :=
  !l.isEmpty && l.all (·.isDigit)

/-- Parse an optional leading sign, returning the sign and the rest. -/
def parseSign : List Char → Int × List Char
  | '-' :: rest => (-1, rest)
  | '+' :: rest => (1, rest)
  | l => (1, l)

/-- Parse an unsigned mantissa `digits`, `digits.digits`, `digits.` or
`.digits` as an exact decimal value. -/
def parseMantissa (l : List Char) : Option Dec :=
  match splitChars '.' l with
  | [a] => if allDigits a then Option.some ⟨digitsToNat a, 0⟩ else Option.none
  | [a, b] =>
    if (allDigits a || a.isEmpty) && (allDigits b || b.isEmpty) && !(a.isEmpty && b.isEmpty) then
      Option.some ⟨digitsToNat (a ++ b), -(b.length : Int)⟩
    else Option.none
  | _ => Option.none

/-- Model of the common numeric-literal grammar accepted by both Python
`float(str)` and `Decimal(str)`, yielding the EXACT decimal value of the
literal: optional surrounding whitespace, optional sign, a mantissa with
optional fractional part, optional `e`/`E` exponent. The finite range of
`float` is applied afterwards at each coercion site (`floatOverflows`),
and `inf`/`nan` literals are recognised separately (`isInfLiteral`;
underscores are outside the model). -/
def pyNumParse (s : String) : Option Dec :=
  let l := (stripChars s.data).map (fun c => if c = 'E' then 'e' else c)
  let (sgn, l) := parseSign l
  match splitChars 'e' l with
  | [mant] => (parseMantissa mant).map (fun d => ⟨sgn * d.m, d.e⟩)
  | [mant, ex] =>
    match parseMantissa mant with
    | Option.none => Option.none
    | Option.some d =>
      let (esgn, ed) := parseSign ex
      if allDigits ed then
        Option.some ⟨sgn * d.m, d.e + esgn * (digitsToNat ed : Int)⟩
      else Option.none
  | _ => Option.none

/-- ASCII lower-casing of one character (written out explicitly), used for
the case-insensitive `inf`/`infinity` float literals. -/
def lowerChar (c : Char) : Char :=
  match c with
  | 'A' => 'a' | 'B' => 'b' | 'C' => 'c' | 'D' => 'd' | 'E' => 'e'
  | 'F' => 'f' | 'G' => 'g' | 'H' => 'h' | 'I' => 'i' | 'J' => 'j'
  | 'K' => 'k' | 'L' => 'l' | 'M' => 'm' | 'N' => 'n' | 'O' => 'o'
  | 'P' => 'p' | 'Q' => 'q' | 'R' => 'r' | 'S' => 's' | 'T' => 't'
  | 'U' => 'u' | 'V' => 'v' | 'W' => 'w' | 'X' => 'x' | 'Y' => 'y'
  | 'Z' => 'z'
  | c => c

/-- Whether a string is one of the infinity literals `float(str)` accepts:
optional surrounding whitespace and sign, then `inf` or `infinity`,
case-insensitively. -/
def isInfLiteral (s : String) : Bool :=
  let l := (stripChars s.data).map lowerChar
  let l := match l with
    | '+' :: r => r
    | '-' :: r => r
    | r => r
  l = ['i', 'n', 'f'] || l = ['i', 'n', 'f', 'i', 'n', 'i', 't', 'y']

/-- The smallest magnitude at which `float(str)` rounds to infinity:
with round-to-nearest-even, every value of magnitude at least
`2^1024 - 2^971` (the midpoint above the largest finite double) becomes
`inf`, and everything below stays finite. Written as the explicit numeral
so that comparisons against it evaluate. -/
def floatOvfBound : Int :=
  179769313486231570814527423731704356798070567525844996598917476803157260780028538760589558632766878171540458953514382464234321326889464182768467546703537516986049910576551282076245490090389328944075868508455133942304583236903222948165808559332123348274797826204144723168738177180919299881250404026184124858368

/-- Whether the exact value of a parsed literal overflows the `float`
range (so `float(str)` returns `inf`/`-inf` and a subsequent `int(...)`
raises `OverflowError`). -/
def floatOverflows (d : Dec) : Bool :=
  Dec.ble ⟨floatOvfBound, 0⟩ ⟨(d.m.natAbs : Int), d.e⟩

/-- Gregorian leap-year test. -/
def isLeap (y : Nat) : Bool :=
  y % 4 = 0 && (y % 100 ≠ 0 || y % 400 = 0)

/-- Days in a month, as validated by `datetime` construction. -/
def daysInMonth (y mo : Nat) : Nat :=
  if mo = 2 then (if isLeap y then 29 else 28)
  else if mo = 4 || mo = 6 || mo = 9 || mo = 11 then 30
  else 31

/-- Parse exactly four digits (the `%Y` directive). -/
def parseY4 (l : List Char) : Option Nat :=
  if l.length = 4 && allDigits l then Option.some (digitsToNat l) else Option.none

/-- Parse one or two digits (the `%m`, `%d`, `%H`, `%M`, `%S` directives). -/
def parse12 (l : List Char) : Option Nat :=
  if (l.length = 1 || l.length = 2) && allDigits l then Option.some (digitsToNat l)
  else Option.none

/-- Validity of a calendar date as `datetime` construction enforces. -/
def validYMD (y mo d : Nat) : Bool :=
  1 ≤ y && y ≤ 9999 && 1 ≤ mo && mo ≤ 12 && 1 ≤ d && d ≤ daysInMonth y mo

/-- Parse a `%Y<sep>%m<sep>%d` date. -/
def parseDateYMD (sep : Char) (l : List Char) : Option (Nat × Nat × Nat) :=
  match splitChars sep l with
  | [ys, ms, ds] =>
    match parseY4 ys, parse12 ms, parse12 ds with
    | Option.some y, Option.some mo, Option.some d =>
      if validYMD y mo d then Option.some (y, mo, d) else Option.none
    | _, _, _ => Option.none
  | _ => Option.none

/-- Parse a `%d/%m/%Y` date. -/
def parseDateDMY (l : List Char) : Option (Nat × Nat × Nat) :=
  match splitChars '/' l with
  | [ds, ms, ys] =>
    match parse12 ds, parse12 ms, parseY4 ys with
    | Option.some d, Option.some mo, Option.some y =>
      if validYMD y mo d then Option.some (y, mo, d) else Option.none
    | _, _, _ => Option.none
  | _ => Option.none

/-- Parse a `%H:%M:%S` time. -/
def parseTimeHMS (l : List Char) : Option (Nat × Nat × Nat) :=
  match splitChars ':' l with
  | [hs, ms, ss] =>
    match parse12 hs, parse12 ms, parse12 ss with
    | Option.some h, Option.some mi, Option.some s =>
      if h ≤ 23 && mi ≤ 59 && s ≤ 59 then Option.some (h, mi, s) else Option.none
    | _, _, _ => Option.none
  | _ => Option.none

/-- Parse a `%H:%M:%S.%f` time (fractional part mandatory, one to six
digits, zero-padded on the right to microseconds). -/
def parseTimeHMSf (l : List Char) : Option (Nat × Nat × Nat × Nat) :=
  match splitChars ':' l with
  | [hs, ms, sf] =>
    match splitChars '.' sf with
    | [ss, fs] =>
      match parse12 hs, parse12 ms, parse12 ss with
      | Option.some h, Option.some mi, Option.some s =>
        if h ≤ 23 && mi ≤ 59 && s ≤ 59 && allDigits fs && fs.length ≤ 6 then
          Option.some (h, mi, s, digitsToNat fs * 10 ^ (6 - fs.length))
        else Option.none
      | _, _, _ => Option.none
    | _ => Option.none
  | _ => Option.none

/-- The format `"%Y-%m-%d"`. -/
def fmtDateOnly (l : List Char) : Option PyDateTime :=
  (parseDateYMD '-' l).map (fun (y, mo, d) => PyDateTime.ymd y mo d 0 0 0 0)

/-- A date and time split by one separator character: the formats
`"%Y-%m-%d %H:%M:%S"` and `"%Y-%m-%dT%H:%M:%S"`. -/
def fmtDateTimeSep (sep : Char) (l : List Char) : Option PyDateTime :=
  match splitChars sep l with
  | [dl, tl] =>
    match parseDateYMD '-' dl, parseTimeHMS tl with
    | Option.some (y, mo, d), Option.some (h, mi, s) =>
      Option.some (PyDateTime.ymd y mo d h mi s 0)
    | _, _ => Option.none
  | _ => Option.none

/-- The format `"%Y-%m-%dT%H:%M:%S.%f"`. -/
def fmtDateTimeTf (l : List Char) : Option PyDateTime :=
  match splitChars 'T' l with
  | [dl, tl] =>
    match parseDateYMD '-' dl, parseTimeHMSf tl with
    | Option.some (y, mo, d), Option.some (h, mi, s, f) =>
      Option.some (PyDateTime.ymd y mo d h mi s f)
    | _, _ => Option.none
  | _ => Option.none

/-- The format `"%Y/%m/%d"`. -/
def fmtDateSlash (l : List Char) : Option PyDateTime :=
  (parseDateYMD '/' l).map (fun (y, mo, d) => PyDateTime.ymd y mo d 0 0 0 0)

/-- The format `"%d/%m/%Y"`. -/
def fmtDateDMY (l : List Char) : Option PyDateTime :=
  (parseDateDMY l).map (fun (y, mo, d) => PyDateTime.ymd y mo d 0 0 0 0)

/-- Try the mapper's ordered list of `strptime` formats, stopping at the
first success, exactly as the loop in `_safe_extract_datetime` does. -/
def tryFormats (s : String) : Option PyDateTime :=
  let l := s.data
  (fmtDateOnly l).orElse fun _ =>
  (fmtDateTimeSep ' ' l).orElse fun _ =>
  (fmtDateTimeSep 'T' l).orElse fun _ =>
  (fmtDateTimeTf l).orElse fun _ =>
  (fmtDateSlash l).orElse fun _ =>
  fmtDateDMY l

/-- Epoch range accepted by `datetime.fromtimestamp` (years 1–9999);
outside it the call raises and the helper falls through to `None`. -/
def inEpochRange (d : Dec) : Bool :=
  Dec.ble ⟨-62135596800, 0⟩ d && Dec.ble d ⟨253402300799, 0⟩

/-- Result of `datetime.fromtimestamp(d)` guarded by its range check. -/
def epochOrNone (d : Dec) : Option PyDateTime :=
  if inEpochRange d then Option.some (PyDateTime.fromEpoch d) else Option.none

/-- Python `repr` of one string: single-quoted, except that a string
containing an apostrophe and no double quote is double-quoted (escaping of
further special characters is outside the model; the pipeline's messages
contain none). -/
def pyStrRepr (s : String) : String :=
  if s.data.contains '\x27' && !s.data.contains '"' then "\"" ++ s ++ "\""
  else "\x27" ++ s ++ "\x27"

/-- Python `repr` of a list of strings, as an f-string renders it
(e.g. `['a', 'b']`). -/
def pyListRepr (l : List String) : String :=
  "[" ++ String.intercalate ", " (l.map pyStrRepr) ++ "]"

/-- Python `str(v)` of a payload value, used when a value is interpolated
into a validation message. Exact for strings, ints, booleans and `None`;
numeric, datetime and dict renderings are abbreviated (no claim depends on
their text). -/
def pyStr : PyVal → String
  | .none => "None"
  | .bool b => if b then "True" else "False"
  | .int n => toString n
  | .float d => toString d.m ++ "E" ++ toString d.e
  | .decimal d => toString d.m ++ "E" ++ toString d.e
  | .str s => s
  | .datetime _ => "<datetime>"
  | .dict _ => "<dict>"

/-- The `DataSource` enum of the `MarketData` entity. -/
inductive DataSource where
  | api
  | csv
  | manual
deriving DecidableEq

/-- The `DataStatus` enum of the `MarketData` entity. -/
inductive DataStatus where
  | pending
  | validated
  | failed
  | saved
deriving DecidableEq

/-- The `MarketData` domain entity (dataclass defaults included;
`__post_init__` sets the creation/update stamps to `now`). -/
structure MarketData where
  id : Option Int := Option.none
  symbol : String := ""
  price : Dec := dec00
  volume : Int := 0
  market_cap : Option Dec := Option.none
  pe_ratio : Option Dec := Option.none
  data_timestamp : Option PyDateTime := Option.none
  source : DataSource := DataSource.api
  status : DataStatus := DataStatus.pending
  raw_data : PyDict := []
  created_at : PyDateTime := PyDateTime.now
  updated_at : PyDateTime := PyDateTime.now

/-- Business validation rules of `MarketData.validate`, in source order;
each rule is checked independently and contributes its error string. -/
def MarketData.validate (md : MarketData) : List String :=
  (if pyStrip md.symbol = "" then ["Symbol is required"] else []) ++
  (if md.price.ble ⟨0, 0⟩ then ["Price must be positive"] else []) ++
  (if md.volume < 0 then ["Volume cannot be negative"] else []) ++
  (match md.market_cap with
   | Option.some c => if c.ble ⟨0, 0⟩ then ["Market cap must be positive if provided"] else []
   | Option.none => []) ++
  (match md.pe_ratio with
   | Option.some r => if r.ble ⟨0, 0⟩ then ["PE ratio must be positive if provided"] else []
   | Option.none => []) ++
  (if md.data_timestamp.isNone then ["Data timestamp is required"] else [])

/-- The `is_valid` predicate: validation yields no errors. -/
def MarketData.is_valid (md : MarketData) : Bool :=
  md.validate.isEmpty

/-- The `mark_as_validated` behavior: re-validates and either advances the
status to `VALIDATED` (whatever the current status is) or raises
`ValueError`. -/
def MarketData.mark_as_validated (md : MarketData) : Except PyExc MarketData :=
  if md.is_valid then
    .ok { md with status := DataStatus.validated, updated_at := PyDateTime.now }
  else
    .error ⟨ExcKind.valueError, "Cannot validate: " ++ pyListRepr md.validate⟩

/-- The `mark_as_saved` behavior: only a `VALIDATED` entity advances to
`SAVED`; anything else raises `ValueError`. -/
def MarketData.mark_as_saved (md : MarketData) : Except PyExc MarketData :=
  if md.status = DataStatus.validated then
    .ok { md with status := DataStatus.saved, updated_at := PyDateTime.now }
  else
    .error ⟨ExcKind.valueError, "Only validated data can be marked as saved"⟩

/-- Per-field schema configuration of the mapper (`schema_mappings["api"]`):
a key path per logical field (or `none` when the source schema cannot
provide the field) plus the required top-level keys. -/
structure SchemaConfig where
  price_path : Option (List String)
  volume_path : Option (List String)
  market_cap_path : Option (List String)
  pe_ratio_path : Option (List String)
  timestamp_path : Option (List String)
  validation_keys : List String

/-- The `SafeDataMapper`: its configured schema. -/
structure SafeDataMapper where
  schema : SchemaConfig

/-- The default Alpha-Vantage global-quote schema installed when no
`schema_config` is passed to the mapper. -/
def defaultMapper : SafeDataMapper :=
  ⟨⟨Option.some ["Global Quote", "05. price"],
    Option.some ["Global Quote", "06. volume"],
    Option.none,
    Option.none,
    Option.some ["Global Quote", "07. latest trading day"],
    ["Global Quote"]⟩⟩

/-- The navigation loop of `_navigate_path`, on an arbitrary current value:
at each step, a non-dict value or a missing key yields `none`. -/
def navigateVal : PyVal → List String → Option PyVal
  | v, [] => Option.some v
  | .dict d, k :: rest =>
    match dictFind d k with
    | Option.some v => navigateVal v rest
    | Option.none => Option.none
  | _, _ :: _ => Option.none

/-- The `_navigate_path` helper applied to a payload dictionary. -/
def SafeDataMapper.navigate_path (data : PyDict) (path : List String) : Option PyVal :=
  navigateVal (.dict data) path

/-- Type dispatch and coercion of `_safe_extract_decimal` on the navigated
value: the `value is None` check, `Decimal` passthrough, numeric
conversion (a `bool` is an `int` to `isinstance`, and `Decimal(str(True))`
raises), stripped-string parse with the empty string yielding absent, and
the last-resort `Decimal(str(value))` which raises on the remaining
types. `Decimal` is arbitrary-precision, so no float-range check applies
here. Known scope limit: Python's `Decimal("inf")`/`Decimal("nan")`
actually SUCCEED, producing the non-finite values `Decimal('Infinity')` /
`Decimal('NaN')`, which lie outside the finite `Dec` model; the model
conservatively treats those literals as a caught parse failure (absent).
No claim depends on a non-finite price. -/
def decimalCoerce : PyVal → Except PyExc (Option Dec)
  | .none => .ok Option.none
  | .decimal d => .ok (Option.some d)
  | .bool _ => .error ⟨ExcKind.invalidOperation, "invalid decimal literal"⟩
  | .int n => .ok (Option.some ⟨n, 0⟩)
  | .float d => .ok (Option.some d)
  | .str s =>
    if pyStrip s = "" then .ok Option.none
    else
      match pyNumParse (pyStrip s) with
      | Option.some d => .ok (Option.some d)
      | Option.none => .error ⟨ExcKind.invalidOperation, "invalid decimal literal"⟩
  | .datetime _ => .error ⟨ExcKind.invalidOperation, "invalid decimal literal"⟩
  | .dict _ => .error ⟨ExcKind.invalidOperation, "invalid decimal literal"⟩

/-- The `_safe_extract_decimal` helper: falsy path yields absent, then
navigation, then coercion inside `try/except (InvalidOperation,
ValueError, TypeError)`. -/
def SafeDataMapper.safe_extract_decimal (data : PyDict) (path : Option (List String)) :
    Except PyExc (Option Dec) :=
  match path with
  | Option.none => .ok Option.none
  | Option.some [] => .ok Option.none
  | Option.some (k :: rest) =>
    match SafeDataMapper.navigate_path data (k :: rest) with
    | Option.none => .ok Option.none
    | Option.some v =>
      match decimalCoerce v with
      | .ok r => .ok r
      | .error ex =>
        if ex.kind = ExcKind.invalidOperation || ex.kind = ExcKind.valueError
            || ex.kind = ExcKind.typeError then .ok Option.none
        else .error ex

/-- Type dispatch and coercion of `_safe_extract_int` on the navigated
value: the `value is None` check, `int` passthrough (a `bool` is an `int`
to `isinstance`), float truncation toward zero, `int(float(value))` on a
string, and the last-resort `int(float(str(value)))` which succeeds on a
`Decimal` and raises `ValueError` on the remaining types. On a string (or
Decimal rendering) whose value overflows the `float` range — `"1e400"`,
`"inf"` — `float` yields infinity and the `int(...)` call raises
`OverflowError`; a `"nan"` string makes `int(...)` raise `ValueError`
(modelled by the parse failing). -/
def intCoerce : PyVal → Except PyExc (Option Int)
  | .none => .ok Option.none
  | .bool b => .ok (Option.some (if b then 1 else 0))
  | .int n => .ok (Option.some n)
  | .float d => .ok (Option.some d.trunc)
  | .str s =>
    if isInfLiteral s then
      .error ⟨ExcKind.overflowError, "cannot convert float infinity to integer"⟩
    else
      match pyNumParse s with
      | Option.some d =>
        if floatOverflows d then
          .error ⟨ExcKind.overflowError, "cannot convert float infinity to integer"⟩
        else .ok (Option.some d.trunc)
      | Option.none => .error ⟨ExcKind.valueError, "could not convert string to float"⟩
  | .decimal d =>
    if floatOverflows d then
      .error ⟨ExcKind.overflowError, "cannot convert float infinity to integer"⟩
    else .ok (Option.some d.trunc)
  | .datetime _ => .error ⟨ExcKind.valueError, "could not convert string to float"⟩
  | .dict _ => .error ⟨ExcKind.valueError, "could not convert string to float"⟩

/-- The `_safe_extract_int` helper: falsy path yields absent, then
navigation, then coercion inside `try/except (ValueError, TypeError)`. -/
def SafeDataMapper.safe_extract_int (data : PyDict) (path : Option (List String)) :
    Except PyExc (Option Int) :=
  match path with
  | Option.none => .ok Option.none
  | Option.some [] => .ok Option.none
  | Option.some (k :: rest) =>
    match SafeDataMapper.navigate_path data (k :: rest) with
    | Option.none => .ok Option.none
    | Option.some v =>
      match intCoerce v with
      | .ok r => .ok r
      | .error ex =>
        if ex.kind = ExcKind.valueError || ex.kind = ExcKind.typeError then .ok Option.none
        else .error ex

/-- Value dispatch of `_safe_extract_datetime`: the `if not value` falsy
short-circuit, `datetime` passthrough, the ordered `strptime` format loop
for strings, epoch interpretation for numerics (a `bool` is numeric to
`isinstance`; out-of-range epochs fall through), absent otherwise. The
internal `strptime`/`fromtimestamp` failures are all caught inside, so the
dispatch is total. -/
def datetimeCoerce (v : PyVal) : Option PyDateTime :=
  if v.falsy then Option.none
  else
    match v with
    | .datetime dt => Option.some dt
    | .str s => tryFormats s
    | .int n => epochOrNone ⟨n, 0⟩
    | .float d => epochOrNone d
    | .bool _ => epochOrNone ⟨1, 0⟩
    | _ => Option.none

/-- The `_safe_extract_datetime` helper: falsy path yields absent, then
navigation (a dead end is falsy), then the total value dispatch. -/
def SafeDataMapper.safe_extract_datetime (data : PyDict) (path : Option (List String)) :
    Except PyExc (Option PyDateTime) :=
  match path with
  | Option.none => .ok Option.none
  | Option.some [] => .ok Option.none
  | Option.some (k :: rest) =>
    match SafeDataMapper.navigate_path data (k :: rest) with
    | Option.none => .ok Option.none
    | Option.some v => .ok (datetimeCoerce v)

/-- The `validate_api_schema` method: a `Missing '<key>'` message per
absent required key, then the `Error Message` marker, then the `Note`
marker, in source order. -/
def SafeDataMapper.validate_api_schema (mapper : SafeDataMapper) (api_data : PyDict) :
    List String :=
  (mapper.schema.validation_keys.filterMap fun k =>
    if dictContains api_data k then Option.none
    else Option.some ("Missing \x27" ++ k ++ "\x27 in API response")) ++
  (match dictFind api_data "Error Message" with
   | Option.some v => ["API Error: " ++ pyStr v]
   | Option.none => []) ++
  (match dictFind api_data "Note" with
   | Option.some v => ["API Limit: " ++ pyStr v]
   | Option.none => [])

/-- The `value or default` idiom applied to an extracted decimal at the
call site of `map_to_market_data` (a zero value is falsy and is replaced
by the default). -/
def orDec (o : Option Dec) (dflt : Dec) : Dec :=
  match o with
  | Option.some d => if d.isZero then dflt else d
  | Option.none => dflt

/-- The `value or default` idiom applied to an extracted integer. -/
def orInt (o : Option Int) (dflt : Int) : Int :=
  match o with
  | Option.some n => if n = 0 then dflt else n
  | Option.none => dflt

/-- The `value or default` idiom applied to an extracted datetime
(`datetime` values are always truthy). -/
def orDT (o : Option PyDateTime) (dflt : PyDateTime) : PyDateTime :=
  match o with
  | Option.some t => t
  | Option.none => dflt

/-- The `map_to_market_data` method: schema validation raising `ValueError`
on any error, then the three safe extractions (whose impossible failures
would be re-raised wrapped in `ValueError` by the `except Exception`
block), then entity construction with upper-cased symbol, call-site
defaults, `source=API`, absent market-cap and PE ratio, and the original
payload stored verbatim. -/
def SafeDataMapper.map_to_market_data (mapper : SafeDataMapper) (api_data : PyDict)
    (symbol : String) : Except PyExc MarketData :=
  let validation_errors := mapper.validate_api_schema api_data
  if validation_errors ≠ [] then
    .error ⟨ExcKind.valueError, "API schema validation failed: " ++ pyListRepr validation_errors⟩
  else
    match SafeDataMapper.safe_extract_decimal api_data mapper.schema.price_path with
    | .error ex => .error ⟨ExcKind.valueError,
        "Failed to map API data for symbol " ++ symbol ++ ": " ++ ex.msg⟩
    | .ok price =>
    match SafeDataMapper.safe_extract_int api_data mapper.schema.volume_path with
    | .error ex => .error ⟨ExcKind.valueError,
        "Failed to map API data for symbol " ++ symbol ++ ": " ++ ex.msg⟩
    | .ok volume =>
    match SafeDataMapper.safe_extract_datetime api_data mapper.schema.timestamp_path with
    | .error ex => .error ⟨ExcKind.valueError,
        "Failed to map API data for symbol " ++ symbol ++ ": " ++ ex.msg⟩
    | .ok timestamp =>
      .ok { symbol := pyUpper symbol
            price := orDec price dec00
            volume := orInt volume 0
            market_cap := Option.none
            pe_ratio := Option.none
            data_timestamp := Option.some (orDT timestamp PyDateTime.now)
            source := DataSource.api
            raw_data := api_data }

/-- The `APIResponse` value object. -/
structure APIResponse where
  status_code : Int
  data : PyDict
  headers : List (String × String)
  execution_time_ms : Int
  timestamp : PyDateTime := PyDateTime.now

/-- The `is_successful` property: a 2xx status. -/
def APIResponse.is_successful (r : APIResponse) : Bool :=
  200 ≤ r.status_code && r.status_code < 300

/-- The `APILog` audit entity (dataclass defaults included). -/
structure APILog where
  id : Option Int := Option.none
  operation : String := ""
  endpoint : String := ""
  status_code : Option Int := Option.none
  success : Bool := false
  error_message : Option String := Option.none
  request_data : PyDict := []
  response_data : PyDict := []
  execution_time_ms : Option Int := Option.none
  timestamp : PyDateTime := PyDateTime.now

/-- An entry of the `failed` result bucket: `_process_symbol` appends the
bare symbol string when the response is missing, while every other failure
path appends a `{"symbol": ..., "error": ...}` record. -/
inductive FailedEntry where
  | plain (symbol : String)
  | record (symbol error : String)
deriving DecidableEq

/-- Ghost trace of the observable collaborator interactions of one run:
each audit-log save issued to the log repository (in issue order) and each
examination of a response's `is_successful` flag. -/
inductive TraceEvent where
  | logAttempt (log : APILog)
  | examine (symbol : String) (success : Bool)

/-- The mutable state of one `fetch_and_store_market_data` run: the three
result buckets plus the ghost event trace. -/
structure RunState where
  successful : List MarketData := []
  failed : List FailedEntry := []
  validation_errors : List (String × List String) := []
  trace : List TraceEvent := []

/-- The collaborators injected into `MarketDataService`, as oracles: the
API port, the data-mapper port, the market-data repository (`save` and
`update`) and the API-log repository (`save`). Each call either returns a
value or raises an exception. The API port may also return a missing
(falsy) response, the boundary case of step 1. -/
structure Collaborators where
  get_market_data : String → Except PyExc (Option APIResponse)
  map_to_market_data : PyDict → String → Except PyExc MarketData
  md_save : MarketData → Except PyExc MarketData
  md_update : MarketData → Except PyExc MarketData
  log_save : APILog → Except PyExc Unit

/-- The audit entry built by `_log_api_call`. -/
def fetchLog (symbol : String) (r : APIResponse) : APILog :=
  { operation := "fetch_market_data"
    endpoint := "/market/" ++ symbol
    status_code := Option.some r.status_code
    success := r.is_successful
    response_data := r.data
    execution_time_ms := Option.some r.execution_time_ms }

/-- The audit entry built by `_handle_mapping_error`. -/
def mappingErrorLog (symbol msg : String) (r : APIResponse) : APILog :=
  { operation := "data_mapping"
    endpoint := "/market/" ++ symbol
    success := false
    error_message := Option.some msg
    response_data := r.data }

/-- The audit entry built by `_handle_unexpected_error`. -/
def unexpectedErrorLog (symbol msg : String) : APILog :=
  { operation := "fetch_and_store"
    endpoint := "/market/" ++ symbol
    success := false
    error_message := Option.some msg }

/-- The `_handle_api_error` helper: append an `API returned <status>`
record to the failed bucket. -/
def handle_api_error (symbol : String) (r : APIResponse) (st : RunState) : RunState :=
  { st with failed := st.failed ++ [.record symbol ("API returned " ++ toString r.status_code)] }

/-- The `_handle_mapping_error` helper: append a `Data mapping failed:`
record to the failed bucket, then save a `data_mapping` audit entry; an
exception raised by that save escapes the helper. -/
def handle_mapping_error (c : Collaborators) (symbol : String) (ex : PyExc)
    (r : APIResponse) (st : RunState) : RunState × Option PyExc :=
  let lg := mappingErrorLog symbol ex.msg r
  let st' := { st with
    failed := st.failed ++ [.record symbol ("Data mapping failed: " ++ ex.msg)]
    trace := st.trace ++ [.logAttempt lg] }
  match c.log_save lg with
  | .ok _ => (st', Option.none)
  | .error e2 => (st', Option.some e2)

/-- The `_handle_unexpected_error` helper: append the exception message as
a record to the failed bucket, then save a `fetch_and_store` audit entry;
an exception raised by that save escapes the helper (and, since the helper
runs inside an `except` block, the whole run). -/
def handle_unexpected_error (c : Collaborators) (symbol : String) (ex : PyExc)
    (st : RunState) : RunState × Option PyExc :=
  let lg := unexpectedErrorLog symbol ex.msg
  let st' := { st with
    failed := st.failed ++ [.record symbol ex.msg]
    trace := st.trace ++ [.logAttempt lg] }
  match c.log_save lg with
  | .ok _ => (st', Option.none)
  | .error e2 => (st', Option.some e2)

/-- The `_map_and_validate_data` helper: call the mapper, then run entity
validation — an invalid entity goes to the validation-errors bucket and
yields no entity — then `mark_as_validated`. Returns the updated state,
the validated entity if any, and the exception that escaped if any. -/
def map_and_validate_data (c : Collaborators) (symbol : String) (r : APIResponse)
    (st : RunState) : RunState × Option MarketData × Option PyExc :=
  match c.map_to_market_data r.data symbol with
  | .error ex => (st, Option.none, Option.some ex)
  | .ok md =>
    if md.is_valid then
      match md.mark_as_validated with
      | .ok md2 => (st, Option.some md2, Option.none)
      | .error ex => (st, Option.none, Option.some ex)
    else
      ({ st with validation_errors := st.validation_errors ++ [(symbol, md.validate)] },
       Option.none, Option.none)

/-- The `_save_market_data` helper: repository `save`, `mark_as_saved` on
the returned entity, repository `update`, then append to the successful
bucket; any raised exception escapes. -/
def save_market_data (c : Collaborators) (md : MarketData) (st : RunState) :
    RunState × Option PyExc :=
  match c.md_save md with
  | .error ex => (st, Option.some ex)
  | .ok saved =>
    match saved.mark_as_saved with
    | .error ex => (st, Option.some ex)
    | .ok saved2 =>
      match c.md_update saved2 with
      | .error ex => (st, Option.some ex)
      | .ok _ => ({ st with successful := st.successful ++ [saved2] }, Option.none)

/-- The `_process_symbol` pipeline for one symbol: fetch (a missing
response appends the bare symbol to failed, with no log), audit-log the
call, examine success (a non-2xx response goes to failed), map and
validate inside `try/except ValueError` (a `ValueError` from the mapper is
routed to `_handle_mapping_error`), then persist. The second component is
the exception escaping `_process_symbol`, if any. -/
def process_symbol (c : Collaborators) (symbol : String) (st : RunState) :
    RunState × Option PyExc :=
  match c.get_market_data symbol with
  | .error ex => (st, Option.some ex)
  | .ok Option.none => ({ st with failed := st.failed ++ [.plain symbol] }, Option.none)
  | .ok (Option.some r) =>
    let st := { st with trace := st.trace ++ [.logAttempt (fetchLog symbol r)] }
    match c.log_save (fetchLog symbol r) with
    | .error ex => (st, Option.some ex)
    | .ok _ =>
      let st := { st with trace := st.trace ++ [.examine symbol r.is_successful] }
      if r.is_successful then
        match map_and_validate_data c symbol r st with
        | (st, _, Option.some ex) =>
          if ex.kind = ExcKind.valueError then handle_mapping_error c symbol ex r st
          else (st, Option.some ex)
        | (st, Option.none, Option.none) => (st, Option.none)
        | (st, Option.some md, Option.none) => save_market_data c md st
      else
        (handle_api_error symbol r st, Option.none)

/-- Which exception classes the `except` cascade of
`fetch_and_store_market_data` catches: `(ValueError, KeyError)`,
`RuntimeError` and `IOError`. -/
def ExcKind.caughtByRun : ExcKind → Bool
  | .valueError => true
  | .keyError => true
  | .runtimeError => true
  | .ioError => true
  | _ => false

/-- One iteration of the symbol loop: `_process_symbol` under the `except`
cascade — a caught exception is routed to `_handle_unexpected_error`, an
uncaught one escapes. -/
def step_symbol (c : Collaborators) (symbol : String) (st : RunState) :
    RunState × Option PyExc :=
  match process_symbol c symbol st with
  | (st', Option.none) => (st', Option.none)
  | (st', Option.some ex) =>
    if ex.kind.caughtByRun then handle_unexpected_error c symbol ex st'
    else (st', Option.some ex)

/-- The symbol loop of `fetch_and_store_market_data`: strictly sequential,
stopping only when an exception escapes an iteration. -/
def run_symbols (c : Collaborators) : List String → RunState → RunState × Option PyExc
  | [], st => (st, Option.none)
  | s :: rest, st =>
    match step_symbol c s st with
    | (st', Option.none) => run_symbols c rest st'
    | (st', Option.some ex) => (st', Option.some ex)

/-- The public `fetch_and_store_market_data` entry point: run the loop
from empty buckets; the results dictionary is returned only on normal
completion, and an escaping exception is the `.error` case. -/
def fetch_and_store_market_data (c : Collaborators) (symbols : List String) :
    Except PyExc RunState :=
  match run_symbols c symbols {} with
  | (st, Option.none) => .ok st
  | (_, Option.some ex) => .error ex

/-- Total number of entries across the three result buckets. -/
def bucketsTotal (st : RunState) : Nat :=
  st.successful.length + st.failed.length + st.validation_errors.length

/-- The `summary` dictionary computed by `FetchMarketDataUseCase.execute`.
On the defensive error path only `total_requested` and `success_rate` are
present, so the three counts are optional. The success rate is a Python
float, modelled exactly as a rational. -/
structure RunSummary where
  total_requested : Nat
  successful_count : Option Nat
  failed_count : Option Nat
  validation_error_count : Option Nat
  success_rate : ℚ

/-- The results dictionary returned by `FetchMarketDataUseCase.execute`:
the three buckets, the summary, and the `error` key present only on the
defensive error path. -/
structure UseCaseResult where
  error : Option String
  successful : List MarketData
  failed : List FailedEntry
  validation_errors : List (String × List String)
  summary : RunSummary

/-- The `AttributeError` raised when `execute` reads the
`self.market_data_service.symbols` attribute and it has never been
assigned. Its class is none of the caught ones. -/
def symbolsAttrError : PyExc :=
  ⟨ExcKind.otherExc, "AttributeError: MarketDataService object has no attribute symbols"⟩

/-- The `FetchMarketDataUseCase.execute` method. `symbolsAttr` models the
state of the service's `symbols` attribute that the use case reads:
`MarketDataService.__init__` does not set it and no code in the
repository ever assigns it, so in the shipped wiring (the container's
`create_use_case`) the attribute is unset (`none`) and the very first
read raises `AttributeError` — which `except (KeyError, ValueError)` does
not catch, so it propagates. With the attribute hypothetically assigned
(`some symbols`), the service call runs inside
`try/except (KeyError, ValueError)`: on normal completion the summary is
attached (guarding the success-rate division by the list's truthiness),
on a caught exception an error payload with empty buckets and zero rate
is returned, and any other exception propagates. -/
def FetchMarketDataUseCase.execute (c : Collaborators)
    (symbolsAttr : Option (List String)) : Except PyExc UseCaseResult :=
  match symbolsAttr with
  | Option.none => .error symbolsAttrError
  | Option.some symbols =>
  match fetch_and_store_market_data c symbols with
  | .ok st => .ok
      { error := Option.none
        successful := st.successful
        failed := st.failed
        validation_errors := st.validation_errors
        summary :=
          { total_requested := symbols.length
            successful_count := Option.some st.successful.length
            failed_count := Option.some st.failed.length
            validation_error_count := Option.some st.validation_errors.length
            success_rate :=
              if symbols.isEmpty then 0
              else (st.successful.length : ℚ) / (symbols.length : ℚ) } }
  | .error ex =>
    if ex.kind = ExcKind.keyError || ex.kind = ExcKind.valueError then
      .ok
        { error := Option.some ex.msg
          successful := []
          failed := []
          validation_errors := []
          summary :=
            { total_requested := symbols.length
              successful_count := Option.none
              failed_count := Option.none
              validation_error_count := Option.none
              success_rate := 0 } }
    else .error ex

/-! ### Supporting lemmas -/

theorem pyWS_upperChar (c : Char) : pyWS (upperChar c) = pyWS c := by
  unfold upperChar
  split <;> rfl

theorem stripChars_eq_nil_iff (l : List Char) : stripChars l = [] ↔ l.all pyWS = true := by
  unfold stripChars
  rw [List.reverse_eq_nil_iff, List.dropWhile_eq_nil_iff, List.all_eq_true]
  constructor
  · intro h x hx
    have hx' : x ∈ List.takeWhile pyWS l ++ List.dropWhile pyWS l := by
      rw [List.takeWhile_append_dropWhile]
      exact hx
    rcases List.mem_append.mp hx' with h1 | h2
    · exact List.mem_takeWhile_imp h1
    · exact h x (List.mem_reverse.mpr h2)
  · intro h x hx
    exact h x ((List.dropWhile_sublist pyWS).mem (List.mem_reverse.mp hx))

theorem pyStrip_eq_empty_iff (s : String) : pyStrip s = "" ↔ s.data.all pyWS = true := by
  constructor
  · intro h
    have h' : stripChars s.data = [] := congrArg String.data h
    exact (stripChars_eq_nil_iff _).mp h'
  · intro h
    show (⟨stripChars s.data⟩ : String) = ⟨[]⟩
    rw [(stripChars_eq_nil_iff _).mpr h]

theorem pyStrip_pyUpper_ne (s : String) (h : pyStrip s ≠ "") : pyStrip (pyUpper s) ≠ "" := by
  intro hc
  apply h
  rw [pyStrip_eq_empty_iff] at hc ⊢
  have hc' : (s.data.map upperChar).all pyWS = true := hc
  rw [List.all_map, List.all_eq_true] at hc'
  rw [List.all_eq_true]
  intro x hx
  have hw := hc' x hx
  rwa [Function.comp_apply, pyWS_upperChar] at hw

theorem dictFind_isSome (d : PyDict) (k : String) :
    (dictFind d k).isSome = dictContains d k := by
  induction d with
  | nil => rfl
  | cons hd tl ih =>
    obtain ⟨k', v⟩ := hd
    by_cases h : k' = k
    · simp [dictFind, dictContains, h]
    · simp [dictFind, dictContains, h, ih]

theorem dictContains_iff_find (d : PyDict) (k : String) :
    dictContains d k = true ↔ ∃ v, dictFind d k = Option.some v := by
  rw [← dictFind_isSome, Option.isSome_iff_exists]

theorem decimalCoerce_error_kind (v : PyVal) (ex : PyExc)
    (h : decimalCoerce v = .error ex) : ex.kind = ExcKind.invalidOperation := by
  cases v <;> simp only [decimalCoerce] at h <;>
    first
      | exact Except.noConfusion h
      | exact (congrArg PyExc.kind (Except.error.inj h)).symm
      | skip
  case str s =>
    by_cases hs : pyStrip s = ""
    · rw [if_pos hs] at h
      exact Except.noConfusion h
    · rw [if_neg hs] at h
      rcases hp : pyNumParse (pyStrip s) with _ | d <;> rw [hp] at h
      · exact (congrArg PyExc.kind (Except.error.inj h)).symm
      · exact Except.noConfusion h

/-! ### C3: the entity status machine -/

/-- A concrete valid entity (PENDING, positive price, timestamp present). -/
def mdValid : MarketData :=
  { symbol := "AAPL", price := ⟨1, 0⟩, volume := 0,
    data_timestamp := Option.some (PyDateTime.ymd 2024 1 15 0 0 0 0) }

/-- The entity `mdValid` after `mark_as_validated`. -/
def mdValidated : MarketData := { mdValid with status := DataStatus.validated }

/-- The entity `mdValid` after `mark_as_validated` then `mark_as_saved`. -/
def mdSaved : MarketData := { mdValid with status := DataStatus.saved }

/-- C3 counterexample: the status machine is not advance-only. On a valid
entity, `mark_as_validated` succeeds from ANY status — in particular a
SAVED entity moves back to VALIDATED, so the status does not only advance
along PENDING→VALIDATED→SAVED. -/
theorem mark_as_validated_regresses_saved :
    mdValid.status = DataStatus.pending ∧
    mdValid.mark_as_validated = .ok mdValidated ∧
    mdValidated.mark_as_saved = .ok mdSaved ∧
    mdSaved.status = DataStatus.saved ∧
    mdSaved.mark_as_validated = .ok mdValidated ∧
    mdValidated.status = DataStatus.validated :=
  ⟨rfl, rfl, rfl, rfl, rfl, rfl⟩

/-- C3 (amended): `mark_as_validated` succeeds exactly when `validate()`
is empty and sets the status to VALIDATED regardless of the current
status (so SAVED can regress); `mark_as_saved` succeeds exactly from
VALIDATED, moving to SAVED, and otherwise raises `ValueError` with the
message "Only validated data can be marked as saved" — in particular it
fails on a PENDING entity. -/
theorem mark_transitions (md : MarketData) :
    (∀ md', md.mark_as_validated = .ok md' →
      md.validate = [] ∧ md'.status = DataStatus.validated) ∧
    (md.validate ≠ [] →
      md.mark_as_validated =
        .error ⟨ExcKind.valueError, "Cannot validate: " ++ pyListRepr md.validate⟩) ∧
    (∀ md', md.mark_as_saved = .ok md' →
      md.status = DataStatus.validated ∧ md'.status = DataStatus.saved) ∧
    (md.status ≠ DataStatus.validated →
      md.mark_as_saved =
        .error ⟨ExcKind.valueError, "Only validated data can be marked as saved"⟩) := by
  refine ⟨?_, ?_, ?_, ?_⟩
  · intro md' h
    unfold MarketData.mark_as_validated at h
    split at h
    · next hv =>
      refine ⟨List.isEmpty_iff.mp hv, ?_⟩
      cases h
      rfl
    · exact absurd h (by simp)
  · intro hne
    unfold MarketData.mark_as_validated
    rw [if_neg]
    simpa [MarketData.is_valid, List.isEmpty_iff] using hne
  · intro md' h
    unfold MarketData.mark_as_saved at h
    split at h
    · next hv =>
      refine ⟨hv, ?_⟩
      cases h
      rfl
    · exact absurd h (by simp)
  · intro hne
    unfold MarketData.mark_as_saved
    rw [if_neg hne]

/-- C3 witness: on the concrete PENDING entity `mdValid`, `mark_as_saved`
raises with the exact message. -/
theorem mark_transitions_w :
    mdValid.mark_as_saved =
      .error ⟨ExcKind.valueError, "Only validated data can be marked as saved"⟩ :=
  (mark_transitions mdValid).2.2.2 (by decide)

/-! ### C4: schema validation blocks mapping -/

/-- C4: whenever `validate_api_schema` returns a non-empty list,
`map_to_market_data` fails at once with a `ValueError` carrying the
rendered list of validation errors, producing no entity; and the list is
non-empty exactly when a required top-level key is missing or an
`Error Message` or `Note` marker key is present. -/
theorem schema_validation_blocks_mapping (mapper : SafeDataMapper) (api_data : PyDict)
    (symbol : String) :
    (mapper.validate_api_schema api_data ≠ [] →
      mapper.map_to_market_data api_data symbol =
        .error ⟨ExcKind.valueError,
          "API schema validation failed: " ++ pyListRepr (mapper.validate_api_schema api_data)⟩) ∧
    (mapper.validate_api_schema api_data ≠ [] ↔
      ((∃ k ∈ mapper.schema.validation_keys, dictContains api_data k = false) ∨
        dictContains api_data "Error Message" = true ∨
        dictContains api_data "Note" = true)) := by
  constructor
  · intro hne
    unfold SafeDataMapper.map_to_market_data
    rw [if_pos hne]
  · unfold SafeDataMapper.validate_api_schema
    constructor
    · intro h
      by_contra hnc
      push_neg at hnc
      obtain ⟨h1, h2, h3⟩ := hnc
      apply h
      have hA : mapper.schema.validation_keys.filterMap (fun k =>
          if dictContains api_data k then Option.none
          else Option.some ("Missing \x27" ++ k ++ "\x27 in API response")) = [] := by
        rw [List.filterMap_eq_nil_iff]
        intro k hk
        have hc : dictContains api_data k = true := by simpa using h1 k hk
        rw [if_pos hc]
      have hEM : dictFind api_data "Error Message" = Option.none := by
        have hc : dictContains api_data "Error Message" = false := by simpa using h2
        have hs : (dictFind api_data "Error Message").isSome = false := by
          rw [dictFind_isSome, hc]
        exact Option.not_isSome_iff_eq_none.mp (by simp [hs])
      have hNote : dictFind api_data "Note" = Option.none := by
        have hc : dictContains api_data "Note" = false := by simpa using h3
        have hs : (dictFind api_data "Note").isSome = false := by
          rw [dictFind_isSome, hc]
        exact Option.not_isSome_iff_eq_none.mp (by simp [hs])
      rw [hA, hEM, hNote]
      rfl
    · intro h hcontra
      have hparts := List.append_eq_nil.mp hcontra
      have hC := hparts.2
      have hparts2 := List.append_eq_nil.mp hparts.1
      have hA := hparts2.1
      have hB := hparts2.2
      rcases h with ⟨k, hk, hnc⟩ | hEM | hNote
      · have hx := List.filterMap_eq_nil_iff.mp hA k hk
        rw [hnc] at hx
        simp at hx
      · obtain ⟨v, hv⟩ := (dictContains_iff_find _ _).mp hEM
        rw [hv] at hB
        simp at hB
      · obtain ⟨w, hw⟩ := (dictContains_iff_find _ _).mp hNote
        rw [hw] at hC
        simp at hC

/-- C4 witness: the empty payload is missing the required `Global Quote`
key, so mapping it fails with the rendered validation errors. -/
theorem schema_validation_blocks_mapping_w :
    SafeDataMapper.map_to_market_data defaultMapper [] "AAPL" =
      .error ⟨ExcKind.valueError,
        "API schema validation failed: " ++
          pyListRepr (SafeDataMapper.validate_api_schema defaultMapper [])⟩ :=
  (schema_validation_blocks_mapping defaultMapper [] "AAPL").1 (by decide)

theorem Dec.beq_self (a : Dec) : a.beq a = true := by
  simp [Dec.beq, Dec.ble]

theorem Dec.beq_of_both_zero (a b : Dec) (ha : a.m = 0) (hb : b.m = 0) :
    a.beq b = true := by
  simp [Dec.beq, Dec.ble, ha, hb]

theorem Dec.isZero_false_of_pos (p : Dec) (h : p.ble ⟨0, 0⟩ = false) :
    p.isZero = false := by
  cases hb : p.isZero with
  | false => rfl
  | true =>
    exfalso
    have hm : p.m = 0 := by simpa [Dec.isZero] using hb
    rw [show p.ble ⟨0, 0⟩ = true by simp [Dec.ble, hm]] at h
    exact Bool.noConfusion h

/-! ### C8: extraction safety -/

/-- Supporting fact: the decimal and datetime helpers ARE total — every
failure class their bodies can raise is listed in their own `except`
clauses — and a navigation dead end yields absent, with the zero/zero/now
defaults applied only at the `map_to_market_data` call site. (The int
helper is NOT total; see the C8 theorem.) -/
theorem safe_extract_decimal_datetime_total (data : PyDict) (path : Option (List String)) :
    (SafeDataMapper.safe_extract_decimal data path).isOk = true ∧
    (SafeDataMapper.safe_extract_datetime data path).isOk = true ∧
    (∀ k rest, path = Option.some (k :: rest) →
      SafeDataMapper.navigate_path data (k :: rest) = Option.none →
      SafeDataMapper.safe_extract_decimal data path = .ok Option.none ∧
      SafeDataMapper.safe_extract_int data path = .ok Option.none ∧
      SafeDataMapper.safe_extract_datetime data path = .ok Option.none) ∧
    (∀ (mapper : SafeDataMapper) (symbol : String),
      mapper.validate_api_schema data = [] →
      SafeDataMapper.safe_extract_decimal data mapper.schema.price_path = .ok Option.none →
      SafeDataMapper.safe_extract_int data mapper.schema.volume_path = .ok Option.none →
      SafeDataMapper.safe_extract_datetime data mapper.schema.timestamp_path = .ok Option.none →
      ∃ md, mapper.map_to_market_data data symbol = .ok md ∧
        md.price = dec00 ∧ md.volume = 0 ∧
        md.data_timestamp = Option.some PyDateTime.now) := by
  refine ⟨?_, ?_, ?_, ?_⟩
  · rcases path with _ | (_ | ⟨k, rest⟩)
    · rfl
    · rfl
    · rcases hnv : SafeDataMapper.navigate_path data (k :: rest) with _ | v
      · simp [SafeDataMapper.safe_extract_decimal, hnv, Except.isOk, Except.toBool]
      · cases hc : decimalCoerce v with
        | ok r => simp [SafeDataMapper.safe_extract_decimal, hnv, hc, Except.isOk, Except.toBool]
        | error ex =>
          have hk := decimalCoerce_error_kind v ex hc
          simp [SafeDataMapper.safe_extract_decimal, hnv, hc, hk, Except.isOk, Except.toBool]
  · rcases path with _ | (_ | ⟨k, rest⟩)
    · rfl
    · rfl
    · rcases hnv : SafeDataMapper.navigate_path data (k :: rest) with _ | v <;>
        simp [SafeDataMapper.safe_extract_datetime, hnv, Except.isOk, Except.toBool]
  · rintro k rest rfl hn
    refine ⟨?_, ?_, ?_⟩ <;> simp only [SafeDataMapper.safe_extract_decimal,
      SafeDataMapper.safe_extract_int, SafeDataMapper.safe_extract_datetime, hn]
  · intro mapper symbol hval hp hv ht
    unfold SafeDataMapper.map_to_market_data
    rw [hval]
    rw [if_neg (by simp)]
    rw [hp, hv, ht]
    exact ⟨_, rfl, rfl, rfl, rfl⟩

/-- A payload whose volume field is the string `"inf"`
(`float("inf")` is `inf`; `int(inf)` raises `OverflowError`). -/
def ovfPayload : PyDict :=
  [("Global Quote", PyVal.dict [("06. volume", PyVal.str "inf")])]

/-- A payload whose volume field is the overflowing numeric string
`"1e400"` (`float("1e400")` is `inf`; `int(inf)` raises `OverflowError`). -/
def ovfPayload2 : PyDict :=
  [("Global Quote", PyVal.dict [("06. volume", PyVal.str "1e400")])]

set_option exponentiation.threshold 600 in
set_option maxRecDepth 8000 in
/-- C8 code bug: the claim (and the helper's own `Safely extract`
docstring) says the extraction helpers never raise, but
`_safe_extract_int` catches only `(ValueError, TypeError)`, so the
`OverflowError` raised by `int(float(value))` for an overflowing value
escapes the helper. This theorem evaluates the embedded helper at two
such failing inputs: the navigated volume strings `"inf"` and `"1e400"`
both make the helper raise `OverflowError` instead of yielding absent. -/
theorem safe_extract_int_overflow_raises :
    SafeDataMapper.navigate_path ovfPayload ["Global Quote", "06. volume"] =
      Option.some (PyVal.str "inf") ∧
    SafeDataMapper.safe_extract_int ovfPayload (Option.some ["Global Quote", "06. volume"]) =
      .error ⟨ExcKind.overflowError, "cannot convert float infinity to integer"⟩ ∧
    SafeDataMapper.safe_extract_int ovfPayload2 (Option.some ["Global Quote", "06. volume"]) =
      .error ⟨ExcKind.overflowError, "cannot convert float infinity to integer"⟩ :=
  ⟨rfl, rfl, rfl⟩

/-! ### C9: timestamp value dispatch -/

/-- The timestamp classification exactly as claim C9 states it: datetime
passthrough; strings through the ordered format list; otherwise numerics
as a Unix epoch value; absent in every other case. -/
def claimTimestampOf : PyVal → Option PyDateTime
  | .datetime dt => Option.some dt
  | .str s => tryFormats s
  | .int n => Option.some (PyDateTime.fromEpoch ⟨n, 0⟩)
  | .float d => Option.some (PyDateTime.fromEpoch d)
  | _ => Option.none

/-- C9 counterexample: at the configured timestamp path a numeric value
`0` is found; the claim's classification interprets it as the Unix epoch,
but the code's `if not value` falsy guard fires first and the extraction
yields absent. -/
def tsPayload : PyDict :=
  [("Global Quote", PyVal.dict [("07. latest trading day", PyVal.int 0)])]

/-- C9 counterexample theorem: the code disagrees with the claim's
classification at the numeric value `0`. -/
theorem timestamp_dispatch_cex :
    SafeDataMapper.navigate_path tsPayload ["Global Quote", "07. latest trading day"] =
      Option.some (PyVal.int 0) ∧
    claimTimestampOf (PyVal.int 0) = Option.some (PyDateTime.fromEpoch ⟨0, 0⟩) ∧
    SafeDataMapper.safe_extract_datetime tsPayload defaultMapper.schema.timestamp_path =
      .ok Option.none :=
  ⟨rfl, rfl, rfl⟩

/-- Modelled from the amended claim: a falsy value (`None`, `False`,
numeric zero, the empty string, an empty dict) yields absent before any
dispatch; then datetime passthrough; strings through the ordered format
list; numerics — booleans included, since a `bool` is an `int` — as a
Unix epoch value when representable, absent when `fromtimestamp` would
fail; absent in every other case. -/
def amendedTimestampOf (v : PyVal) : Option PyDateTime :=
  if v.falsy then Option.none
  else
    match v with
    | .datetime dt => Option.some dt
    | .str s => tryFormats s
    | .int n => epochOrNone ⟨n, 0⟩
    | .float d => epochOrNone d
    | .bool _ => epochOrNone ⟨1, 0⟩
    | _ => Option.none

/-- C9 (amended): for every value found at the timestamp path, the
extraction result is exactly the amended classification. -/
theorem timestamp_dispatch (data : PyDict) (k : String) (rest : List String) (v : PyVal)
    (hnav : SafeDataMapper.navigate_path data (k :: rest) = Option.some v) :
    SafeDataMapper.safe_extract_datetime data (Option.some (k :: rest)) =
      .ok (amendedTimestampOf v) := by
  simp only [SafeDataMapper.safe_extract_datetime, hnav]
  cases v <;> rfl

/-- C9 witness: at the concrete payload holding `0`, the amended
classification agrees with the code (both absent). -/
theorem timestamp_dispatch_w :
    SafeDataMapper.safe_extract_datetime tsPayload
      (Option.some ["Global Quote", "07. latest trading day"]) =
      .ok (amendedTimestampOf (PyVal.int 0)) :=
  timestamp_dispatch tsPayload "Global Quote" ["07. latest trading day"] (PyVal.int 0) rfl

/-! ### C5: mapper round trip -/

/-- C5: for a payload that passes schema validation and yields well-formed
price, volume and timestamp at the configured paths, and a non-blank
symbol, mapping produces an entity carrying exactly those values (value
equality for the decimal price, which the falsy-default idiom preserves),
with upper-cased symbol, `source=API`, no market cap, no PE ratio, the
payload stored verbatim, PENDING status — and a positive price with
non-negative volume makes `validate()` empty. -/
theorem mapper_round_trip (mapper : SafeDataMapper) (data : PyDict) (symbol : String)
    (p : Dec) (v : Int) (t : PyDateTime)
    (hval : mapper.validate_api_schema data = [])
    (hp : SafeDataMapper.safe_extract_decimal data mapper.schema.price_path =
      .ok (Option.some p))
    (hv : SafeDataMapper.safe_extract_int data mapper.schema.volume_path =
      .ok (Option.some v))
    (ht : SafeDataMapper.safe_extract_datetime data mapper.schema.timestamp_path =
      .ok (Option.some t))
    (hsym : pyStrip symbol ≠ "") :
    ∃ md, mapper.map_to_market_data data symbol = .ok md ∧
      md.symbol = pyUpper symbol ∧
      Dec.beq md.price p = true ∧
      md.volume = v ∧
      md.data_timestamp = Option.some t ∧
      md.source = DataSource.api ∧
      md.market_cap = Option.none ∧
      md.pe_ratio = Option.none ∧
      md.raw_data = data ∧
      md.status = DataStatus.pending ∧
      (p.ble ⟨0, 0⟩ = false → 0 ≤ v → md.validate = []) := by
  unfold SafeDataMapper.map_to_market_data
  rw [hval, if_neg (by simp), hp, hv, ht]
  refine ⟨_, rfl, rfl, ?_, ?_, rfl, rfl, rfl, rfl, rfl, rfl, ?_⟩
  · show (orDec (Option.some p) dec00).beq p = true
    by_cases hz : p.isZero
    · have hm : p.m = 0 := by simpa [Dec.isZero] using hz
      simp only [orDec, hz, if_pos]
      exact Dec.beq_of_both_zero _ _ rfl hm
    · simp only [orDec, hz, if_neg, Bool.false_eq_true, not_false_eq_true]
      exact Dec.beq_self p
  · show orInt (Option.some v) 0 = v
    by_cases hz : v = 0
    · simp [orInt, hz]
    · simp [orInt, hz]
  · intro hpos hvnn
    have hz := Dec.isZero_false_of_pos p hpos
    have hprice : orDec (Option.some p) dec00 = p := by simp [orDec, hz]
    have hsym' := pyStrip_pyUpper_ne symbol hsym
    have hvol : orInt (Option.some v) 0 = v := by
      by_cases hz0 : v = 0 <;> simp [orInt, hz0]
    show MarketData.validate _ = []
    unfold MarketData.validate
    rw [hprice, hvol]
    simp [hsym', hpos, not_lt.mpr hvnn, orDT]

/-- A concrete well-formed Alpha-Vantage global-quote payload. -/
def payloadGood : PyDict :=
  [("Global Quote", PyVal.dict
    [("05. price", PyVal.str "150.25"),
     ("06. volume", PyVal.str "1000"),
     ("07. latest trading day", PyVal.str "2024-01-15")])]

/-- C5 witness: the concrete payload maps to a valid entity with the
parsed price `150.25`, volume `1000` and the parsed trading day. -/
theorem mapper_round_trip_w :
    ∃ md, SafeDataMapper.map_to_market_data defaultMapper payloadGood "aapl" = .ok md ∧
      md.symbol = pyUpper "aapl" ∧
      Dec.beq md.price ⟨15025, -2⟩ = true ∧
      md.volume = 1000 ∧
      md.data_timestamp = Option.some (PyDateTime.ymd 2024 1 15 0 0 0 0) ∧
      md.source = DataSource.api ∧
      md.market_cap = Option.none ∧
      md.pe_ratio = Option.none ∧
      md.raw_data = payloadGood ∧
      md.status = DataStatus.pending ∧
      ((⟨15025, -2⟩ : Dec).ble ⟨0, 0⟩ = false → 0 ≤ (1000 : Int) → md.validate = []) :=
  mapper_round_trip defaultMapper payloadGood "aapl" ⟨15025, -2⟩ 1000
    (PyDateTime.ymd 2024 1 15 0 0 0 0) (by decide) (by rfl) (by rfl) (by rfl) (by decide)

/-! ### Service case-analysis lemmas -/

/-- The entity produced by a successful `mark_as_validated`. -/
def markValidated (md : MarketData) : MarketData :=
  { md with status := DataStatus.validated, updated_at := PyDateTime.now }

theorem mark_as_validated_of_valid (md : MarketData) (h : md.is_valid = true) :
    md.mark_as_validated = .ok (markValidated md) := by
  unfold MarketData.mark_as_validated markValidated
  rw [if_pos h]

theorem process_symbol_buckets (c : Collaborators) (s : String) (st : RunState)
    (hdm : ∀ lg : APILog, lg.operation = "data_mapping" → c.log_save lg = .ok ()) :
    (∃ st', process_symbol c s st = (st', Option.none) ∧
      bucketsTotal st' = bucketsTotal st + 1) ∨
    (∃ st' e, process_symbol c s st = (st', Option.some e) ∧
      bucketsTotal st' = bucketsTotal st) := by
  unfold process_symbol
  cases hg : c.get_market_data s with
  | error e0 => exact Or.inr ⟨st, e0, rfl, rfl⟩
  | ok opt =>
    cases opt with
    | none =>
      refine Or.inl ⟨_, rfl, ?_⟩
      simp only [bucketsTotal, List.length_append, List.length_singleton]
      omega
    | some r =>
      dsimp only
      cases hl : c.log_save (fetchLog s r) with
      | error ex => exact Or.inr ⟨_, ex, rfl, rfl⟩
      | ok u =>
        dsimp only
        cases hs : r.is_successful with
        | false =>
          simp only [hs, Bool.false_eq_true, if_false]
          refine Or.inl ⟨_, rfl, ?_⟩
          simp only [handle_api_error, bucketsTotal, List.length_append, List.length_singleton]
          omega
        | true =>
          simp only [hs, if_true]
          unfold map_and_validate_data
          cases hm : c.map_to_market_data r.data s with
          | error em =>
            dsimp only
            by_cases hk : em.kind = ExcKind.valueError
            · rw [if_pos hk]
              unfold handle_mapping_error
              dsimp only
              rw [hdm (mappingErrorLog s em.msg r) rfl]
              refine Or.inl ⟨_, rfl, ?_⟩
              simp only [bucketsTotal, List.length_append, List.length_singleton]
              omega
            · rw [if_neg hk]
              exact Or.inr ⟨_, em, rfl, rfl⟩
          | ok md =>
            dsimp only
            cases hvd : md.is_valid with
            | false =>
              simp only [hvd, Bool.false_eq_true, if_false]
              refine Or.inl ⟨_, rfl, ?_⟩
              simp only [bucketsTotal, List.length_append, List.length_singleton]
              omega
            | true =>
              simp only [hvd, if_true]
              rw [mark_as_validated_of_valid md hvd]
              dsimp only
              unfold save_market_data
              cases hsv : c.md_save (markValidated md) with
              | error ex => exact Or.inr ⟨_, ex, rfl, rfl⟩
              | ok saved =>
                dsimp only
                cases hms : saved.mark_as_saved with
                | error ex => exact Or.inr ⟨_, ex, rfl, rfl⟩
                | ok saved2 =>
                  dsimp only
                  cases hup : c.md_update saved2 with
                  | error ex => exact Or.inr ⟨_, ex, rfl, rfl⟩
                  | ok w =>
                    refine Or.inl ⟨_, rfl, ?_⟩
                    simp only [bucketsTotal, List.length_append, List.length_singleton]
                    omega

theorem step_symbol_buckets (c : Collaborators) (s : String) (st : RunState)
    (hdm : ∀ lg : APILog, lg.operation = "data_mapping" → c.log_save lg = .ok ()) :
    (∃ st', step_symbol c s st = (st', Option.none) ∧
      bucketsTotal st' = bucketsTotal st + 1) ∨
    (∃ st' e, step_symbol c s st = (st', Option.some e)) := by
  unfold step_symbol
  rcases process_symbol_buckets c s st hdm with ⟨st1, hp, hb⟩ | ⟨st1, e, hp, hb⟩
  · rw [hp]
    exact Or.inl ⟨st1, rfl, hb⟩
  · rw [hp]
    dsimp only
    by_cases hcg : e.kind.caughtByRun = true
    · rw [if_pos hcg]
      unfold handle_unexpected_error
      dsimp only
      cases hl : c.log_save (unexpectedErrorLog s e.msg) with
      | ok u =>
        refine Or.inl ⟨_, rfl, ?_⟩
        simp only [bucketsTotal, List.length_append, List.length_singleton] at hb ⊢
        omega
      | error e2 => exact Or.inr ⟨_, e2, rfl⟩
    · rw [if_neg hcg]
      exact Or.inr ⟨st1, e, rfl⟩

theorem run_symbols_buckets (c : Collaborators)
    (hdm : ∀ lg : APILog, lg.operation = "data_mapping" → c.log_save lg = .ok ()) :
    ∀ (symbols : List String) (st st' : RunState),
      run_symbols c symbols st = (st', Option.none) →
      bucketsTotal st' = bucketsTotal st + symbols.length := by
  intro symbols
  induction symbols with
  | nil =>
    intro st st' h
    unfold run_symbols at h
    cases h
    simp
  | cons s rest ih =>
    intro st st' h
    unfold run_symbols at h
    rcases step_symbol_buckets c s st hdm with ⟨st1, hstep, hb⟩ | ⟨st1, e, hstep⟩
    · rw [hstep] at h
      have := ih st1 st' h
      rw [this, hb]
      simp only [List.length_cons]
      omega
    · rw [hstep] at h
      exact absurd h (by simp)

/-! ### C1: the three buckets partition the symbols -/

/-- C1 (amended): whenever `fetch_and_store_market_data` returns normally
and the audit-log saves issued inside the mapping-error handler (operation
`data_mapping`) do not raise, the three result buckets partition the
input: their lengths sum to the number of symbols, each symbol having
contributed exactly one entry. (Without the proviso, a `data_mapping`
audit save that raises a caught exception makes the outer handler record
the same symbol a second time — see the counterexample.) -/
theorem buckets_partition (c : Collaborators) (symbols : List String) (st : RunState)
    (hdm : ∀ lg : APILog, lg.operation = "data_mapping" → c.log_save lg = .ok ())
    (hok : fetch_and_store_market_data c symbols = .ok st) :
    st.successful.length + st.failed.length + st.validation_errors.length = symbols.length := by
  unfold fetch_and_store_market_data at hok
  cases hr : run_symbols c symbols {} with
  | mk st1 exo =>
    rw [hr] at hok
    cases exo with
    | none =>
      injection hok with h1
      subst h1
      have hb := run_symbols_buckets c hdm symbols {} st1 hr
      simpa [bucketsTotal] using hb
    | some e => exact absurd hok (by simp)

/-- A 200 response with an empty payload. -/
def resp200 : APIResponse :=
  { status_code := 200, data := [], headers := [], execution_time_ms := 5 }

/-- Collaborators in which the mapper raises `ValueError` and the log
repository raises exactly on `data_mapping` audit entries. -/
def cDouble : Collaborators :=
  { get_market_data := fun _ => .ok (Option.some resp200)
    map_to_market_data := fun _ _ => .error ⟨ExcKind.valueError, "bad payload"⟩
    md_save := fun md => .ok md
    md_update := fun md => .ok md
    log_save := fun lg =>
      if lg.operation = "data_mapping" then .error ⟨ExcKind.valueError, "log repository down"⟩
      else .ok () }

/-- Bucket total of a run result (zero if an exception escaped). -/
def resultBuckets : Except PyExc RunState → Nat
  | .ok st => bucketsTotal st
  | .error _ => 0

/-- C1 counterexample: one symbol, a mapping failure whose `data_mapping`
audit save raises a caught `ValueError`; the run completes normally but
the symbol is recorded twice in the failed bucket, so the buckets do not
partition the input (2 entries for 1 symbol). -/
theorem buckets_partition_cex :
    (fetch_and_store_market_data cDouble ["AAPL"]).isOk = true ∧
    resultBuckets (fetch_and_store_market_data cDouble ["AAPL"]) = 2 ∧
    (["AAPL"] : List String).length = 1 :=
  ⟨rfl, rfl, rfl⟩

/-- Collaborators whose API port reports a missing response and whose
repositories behave; the mapper is never reached. -/
def cNullResp : Collaborators :=
  { get_market_data := fun _ => .ok Option.none
    map_to_market_data := fun _ _ => .error ⟨ExcKind.valueError, "unused"⟩
    md_save := fun md => .ok md
    md_update := fun md => .ok md
    log_save := fun _ => .ok () }

/-- C1 witness: a concrete one-symbol run (missing response) whose buckets
sum to one. -/
theorem buckets_partition_w :
    ({ failed := [FailedEntry.plain "AAPL"] } : RunState).successful.length +
      ({ failed := [FailedEntry.plain "AAPL"] } : RunState).failed.length +
      ({ failed := [FailedEntry.plain "AAPL"] } : RunState).validation_errors.length =
      (["AAPL"] : List String).length :=
  buckets_partition cNullResp ["AAPL"] { failed := [FailedEntry.plain "AAPL"] }
    (fun _ _ => rfl) rfl

theorem handle_unexpected_ok (c : Collaborators) (s : String) (e : PyExc) (st : RunState)
    (hfs : ∀ lg : APILog, lg.operation = "fetch_and_store" → c.log_save lg = .ok ()) :
    handle_unexpected_error c s e st =
      ({ st with
          failed := st.failed ++ [.record s e.msg]
          trace := st.trace ++ [.logAttempt (unexpectedErrorLog s e.msg)] }, Option.none) := by
  unfold handle_unexpected_error
  dsimp only
  rw [hfs (unexpectedErrorLog s e.msg) rfl]

theorem step_symbol_ok (c : Collaborators) (s : String) (st : RunState)
    (hg1 : ∀ s e, c.get_market_data s = .error e → e.kind.caughtByRun = true)
    (hg2 : ∀ d s e, c.map_to_market_data d s = .error e → e.kind.caughtByRun = true)
    (hg3 : ∀ md e, c.md_save md = .error e → e.kind.caughtByRun = true)
    (hg4 : ∀ md e, c.md_update md = .error e → e.kind.caughtByRun = true)
    (hg5 : ∀ lg e, c.log_save lg = .error e → e.kind.caughtByRun = true)
    (hfs : ∀ lg : APILog, lg.operation = "fetch_and_store" → c.log_save lg = .ok ()) :
    ∃ st', step_symbol c s st = (st', Option.none) ∧
      bucketsTotal st + 1 ≤ bucketsTotal st' := by
  unfold step_symbol process_symbol
  cases hg : c.get_market_data s with
  | error e0 =>
    dsimp only
    rw [if_pos (hg1 s e0 hg), handle_unexpected_ok c s e0 st hfs]
    refine ⟨_, rfl, ?_⟩
    simp only [bucketsTotal, List.length_append, List.length_singleton]
    omega
  | ok opt =>
    cases opt with
    | none =>
      refine ⟨_, rfl, ?_⟩
      simp only [bucketsTotal, List.length_append, List.length_singleton]
      omega
    | some r =>
      dsimp only
      cases hl : c.log_save (fetchLog s r) with
      | error ex =>
        dsimp only
        rw [if_pos (hg5 _ ex hl), handle_unexpected_ok c s ex _ hfs]
        refine ⟨_, rfl, ?_⟩
        simp only [bucketsTotal, List.length_append, List.length_singleton]
        omega
      | ok u =>
        dsimp only
        cases hs : r.is_successful with
        | false =>
          simp only [hs, Bool.false_eq_true, if_false]
          refine ⟨_, rfl, ?_⟩
          simp only [handle_api_error, bucketsTotal, List.length_append, List.length_singleton]
          omega
        | true =>
          simp only [hs, if_true]
          unfold map_and_validate_data
          cases hm : c.map_to_market_data r.data s with
          | error em =>
            dsimp only
            by_cases hk : em.kind = ExcKind.valueError
            · rw [if_pos hk]
              unfold handle_mapping_error
              dsimp only
              cases hml : c.log_save (mappingErrorLog s em.msg r) with
              | ok u2 =>
                refine ⟨_, rfl, ?_⟩
                simp only [bucketsTotal, List.length_append, List.length_singleton]
                omega
              | error e2 =>
                dsimp only
                rw [if_pos (hg5 _ e2 hml), handle_unexpected_ok c s e2 _ hfs]
                refine ⟨_, rfl, ?_⟩
                simp only [bucketsTotal, List.length_append, List.length_singleton]
                omega
            · rw [if_neg hk]
              dsimp only
              rw [if_pos (hg2 r.data s em hm), handle_unexpected_ok c s em _ hfs]
              refine ⟨_, rfl, ?_⟩
              simp only [bucketsTotal, List.length_append, List.length_singleton]
              omega
          | ok md =>
            dsimp only
            cases hvd : md.is_valid with
            | false =>
              simp only [hvd, Bool.false_eq_true, if_false]
              refine ⟨_, rfl, ?_⟩
              simp only [bucketsTotal, List.length_append, List.length_singleton]
              omega
            | true =>
              simp only [hvd, if_true]
              rw [mark_as_validated_of_valid md hvd]
              dsimp only
              unfold save_market_data
              cases hsv : c.md_save (markValidated md) with
              | error ex =>
                dsimp only
                rw [if_pos (hg3 _ ex hsv), handle_unexpected_ok c s ex _ hfs]
                refine ⟨_, rfl, ?_⟩
                simp only [bucketsTotal, List.length_append, List.length_singleton]
                omega
              | ok saved =>
                dsimp only
                cases hms : saved.mark_as_saved with
                | error ex =>
                  dsimp only
                  have hkv : ex.kind = ExcKind.valueError := by
                    unfold MarketData.mark_as_saved at hms
                    split at hms
                    · exact absurd hms (by simp)
                    · exact (congrArg PyExc.kind (Except.error.inj hms)).symm
                  rw [if_pos (by rw [hkv]; rfl), handle_unexpected_ok c s ex _ hfs]
                  refine ⟨_, rfl, ?_⟩
                  simp only [bucketsTotal, List.length_append, List.length_singleton]
                  omega
                | ok saved2 =>
                  dsimp only
                  cases hup : c.md_update saved2 with
                  | error ex =>
                    dsimp only
                    rw [if_pos (hg4 _ ex hup), handle_unexpected_ok c s ex _ hfs]
                    refine ⟨_, rfl, ?_⟩
                    simp only [bucketsTotal, List.length_append, List.length_singleton]
                    omega
                  | ok w =>
                    refine ⟨_, rfl, ?_⟩
                    simp only [bucketsTotal, List.length_append, List.length_singleton]
                    omega

theorem run_symbols_ok (c : Collaborators)
    (hg1 : ∀ s e, c.get_market_data s = .error e → e.kind.caughtByRun = true)
    (hg2 : ∀ d s e, c.map_to_market_data d s = .error e → e.kind.caughtByRun = true)
    (hg3 : ∀ md e, c.md_save md = .error e → e.kind.caughtByRun = true)
    (hg4 : ∀ md e, c.md_update md = .error e → e.kind.caughtByRun = true)
    (hg5 : ∀ lg e, c.log_save lg = .error e → e.kind.caughtByRun = true)
    (hfs : ∀ lg : APILog, lg.operation = "fetch_and_store" → c.log_save lg = .ok ()) :
    ∀ (symbols : List String) (st : RunState),
      ∃ st', run_symbols c symbols st = (st', Option.none) ∧
        bucketsTotal st + symbols.length ≤ bucketsTotal st' := by
  intro symbols
  induction symbols with
  | nil => exact fun st => ⟨st, rfl, by simp⟩
  | cons s rest ih =>
    intro st
    obtain ⟨st1, hstep, hb⟩ := step_symbol_ok c s st hg1 hg2 hg3 hg4 hg5 hfs
    obtain ⟨st2, hrun, hb2⟩ := ih st1
    refine ⟨st2, ?_, ?_⟩
    · unfold run_symbols
      rw [hstep]
      exact hrun
    · simp only [List.length_cons]
      omega

/-! ### C2: no exception escapes -/

/-- C2 (amended): `fetch_and_store_market_data` catches exactly the
classes `ValueError`, `KeyError`, `RuntimeError` and `IOError`. Provided
every exception the collaborators raise is of one of those classes and
the audit-log save inside the fallback handler (operation
`fetch_and_store`) does not raise, no exception escapes: the call returns
the result buckets, the fallback handler having recorded each caught
failure in the failed bucket and processing having continued through
every symbol (each symbol contributes at least one bucket entry). An
exception of any other class — or one raised by the fallback handler's
own audit save — escapes the method, as the counterexample shows. -/
theorem no_exception_escapes (c : Collaborators) (symbols : List String)
    (hg1 : ∀ s e, c.get_market_data s = .error e → e.kind.caughtByRun = true)
    (hg2 : ∀ d s e, c.map_to_market_data d s = .error e → e.kind.caughtByRun = true)
    (hg3 : ∀ md e, c.md_save md = .error e → e.kind.caughtByRun = true)
    (hg4 : ∀ md e, c.md_update md = .error e → e.kind.caughtByRun = true)
    (hg5 : ∀ lg e, c.log_save lg = .error e → e.kind.caughtByRun = true)
    (hfs : ∀ lg : APILog, lg.operation = "fetch_and_store" → c.log_save lg = .ok ()) :
    ∃ st, fetch_and_store_market_data c symbols = .ok st ∧
      symbols.length ≤ bucketsTotal st := by
  obtain ⟨st', hrun, hb⟩ := run_symbols_ok c hg1 hg2 hg3 hg4 hg5 hfs symbols {}
  refine ⟨st', ?_, ?_⟩
  · unfold fetch_and_store_market_data
    rw [hrun]
  · simpa [bucketsTotal] using hb

/-- Collaborators whose mapper raises a `TypeError`-class exception, which
the service's `except` cascade does not catch. -/
def cTypeError : Collaborators :=
  { get_market_data := fun _ => .ok (Option.some resp200)
    map_to_market_data := fun _ _ => .error ⟨ExcKind.typeError, "unsupported operand"⟩
    md_save := fun md => .ok md
    md_update := fun md => .ok md
    log_save := fun _ => .ok () }

/-- C2 counterexample: a collaborator exception outside the four caught
classes (here a `TypeError` from the mapper) escapes
`fetch_and_store_market_data` instead of being bucketed. -/
theorem no_exception_escapes_cex :
    fetch_and_store_market_data cTypeError ["AAPL"] =
      .error ⟨ExcKind.typeError, "unsupported operand"⟩ :=
  rfl

/-- C2 witness: with collaborators that raise only caught classes, a
concrete one-symbol run returns normally with the symbol accounted for. -/
theorem no_exception_escapes_w :
    ∃ st, fetch_and_store_market_data cNullResp ["AAPL"] = .ok st ∧
      (["AAPL"] : List String).length ≤ bucketsTotal st :=
  no_exception_escapes cNullResp ["AAPL"]
    (fun _ e h => Except.noConfusion h)
    (fun _ _ e h => by injection h with h'; subst h'; rfl)
    (fun _ e h => Except.noConfusion h)
    (fun _ e h => Except.noConfusion h)
    (fun _ e h => Except.noConfusion h)
    (fun _ _ => rfl)

/-! ### Trace and failed-bucket deltas of one symbol step -/

/-- Events that are audit-log attempts with operation `fetch_market_data`. -/
def isFetchLogEvent : TraceEvent → Bool
  | .logAttempt lg => lg.operation = "fetch_market_data"
  | .examine _ _ => false

/-- Number of `fetch_market_data` audit-log attempts in a trace. -/
def fetchLogCount (tr : List TraceEvent) : Nat :=
  (tr.filter isFetchLogEvent).length

theorem handle_unexpected_fst (c : Collaborators) (s : String) (e : PyExc) (st : RunState) :
    (handle_unexpected_error c s e st).1 =
      { st with
          failed := st.failed ++ [.record s e.msg]
          trace := st.trace ++ [.logAttempt (unexpectedErrorLog s e.msg)] } := by
  unfold handle_unexpected_error
  dsimp only
  cases c.log_save (unexpectedErrorLog s e.msg) <;> rfl

theorem handle_mapping_fst (c : Collaborators) (s : String) (e : PyExc) (r : APIResponse)
    (st : RunState) :
    (handle_mapping_error c s e r st).1 =
      { st with
          failed := st.failed ++ [.record s ("Data mapping failed: " ++ e.msg)]
          trace := st.trace ++ [.logAttempt (mappingErrorLog s e.msg r)] } := by
  unfold handle_mapping_error
  dsimp only
  cases c.log_save (mappingErrorLog s e.msg r) <;> rfl

theorem step_symbol_deltas (c : Collaborators) (s : String) (st : RunState) :
    ∃ tr fd,
      (step_symbol c s st).1.trace = st.trace ++ tr ∧
      (step_symbol c s st).1.failed = st.failed ++ fd ∧
      (∀ entry ∈ fd,
        (c.get_market_data s = .ok Option.none ∧ entry = FailedEntry.plain s) ∨
        ∃ msg, entry = FailedEntry.record s msg) ∧
      (match c.get_market_data s with
       | .ok (Option.some r) =>
          ∃ tr', tr = TraceEvent.logAttempt (fetchLog s r) :: tr' ∧ fetchLogCount tr' = 0
       | _ => fetchLogCount tr = 0) := by
  unfold step_symbol process_symbol
  cases hg : c.get_market_data s with
  | error e0 =>
    dsimp only
    by_cases hcg : e0.kind.caughtByRun = true
    · rw [if_pos hcg, handle_unexpected_fst]
      exact ⟨[.logAttempt (unexpectedErrorLog s e0.msg)], [.record s e0.msg], rfl, rfl,
        fun entry he => Or.inr ⟨_, List.mem_singleton.mp he⟩, rfl⟩
    · rw [if_neg hcg]
      exact ⟨[], [], by simp, by simp, fun entry he => absurd he (List.not_mem_nil entry), rfl⟩
  | ok opt =>
    cases opt with
    | none =>
      exact ⟨[], [FailedEntry.plain s], by simp, rfl,
        fun entry he => Or.inl ⟨rfl, List.mem_singleton.mp he⟩, rfl⟩
    | some r =>
      dsimp only
      cases hl : c.log_save (fetchLog s r) with
      | error ex =>
        dsimp only
        by_cases hcg : ex.kind.caughtByRun = true
        · rw [if_pos hcg, handle_unexpected_fst]
          refine ⟨[.logAttempt (fetchLog s r), .logAttempt (unexpectedErrorLog s ex.msg)],
            [.record s ex.msg], by simp, rfl,
            fun entry he => Or.inr ⟨_, List.mem_singleton.mp he⟩,
            ⟨[.logAttempt (unexpectedErrorLog s ex.msg)], rfl, rfl⟩⟩
        · rw [if_neg hcg]
          exact ⟨[.logAttempt (fetchLog s r)], [], rfl, by simp,
            fun entry he => absurd he (List.not_mem_nil entry), ⟨[], rfl, rfl⟩⟩
      | ok u =>
        dsimp only
        cases hs : r.is_successful with
        | false =>
          simp only [hs, Bool.false_eq_true, if_false]
          refine ⟨[.logAttempt (fetchLog s r), .examine s false],
            [.record s ("API returned " ++ toString r.status_code)],
            by simp [handle_api_error], by simp [handle_api_error],
            fun entry he => Or.inr ⟨_, List.mem_singleton.mp he⟩,
            ⟨[.examine s false], rfl, rfl⟩⟩
        | true =>
          simp only [hs, if_true]
          unfold map_and_validate_data
          cases hm : c.map_to_market_data r.data s with
          | error em =>
            dsimp only
            by_cases hk : em.kind = ExcKind.valueError
            · rw [if_pos hk]
              unfold handle_mapping_error
              dsimp only
              cases hml : c.log_save (mappingErrorLog s em.msg r) with
              | ok u2 =>
                refine ⟨[.logAttempt (fetchLog s r), .examine s true,
                    .logAttempt (mappingErrorLog s em.msg r)],
                  [.record s ("Data mapping failed: " ++ em.msg)],
                  by simp, by simp,
                  fun entry he => Or.inr ⟨_, List.mem_singleton.mp he⟩,
                  ⟨[.examine s true, .logAttempt (mappingErrorLog s em.msg r)], rfl, rfl⟩⟩
              | error e2 =>
                dsimp only
                by_cases hcg : e2.kind.caughtByRun = true
                · rw [if_pos hcg, handle_unexpected_fst]
                  refine ⟨[.logAttempt (fetchLog s r), .examine s true,
                      .logAttempt (mappingErrorLog s em.msg r), .logAttempt (unexpectedErrorLog s e2.msg)],
                    [.record s ("Data mapping failed: " ++ em.msg), .record s e2.msg],
                    by simp, by simp,
                    ?_,
                    ⟨[.examine s true, .logAttempt (mappingErrorLog s em.msg r),
                      .logAttempt (unexpectedErrorLog s e2.msg)], rfl, rfl⟩⟩
                  intro entry he
                  rcases List.mem_cons.mp he with h1 | h2
                  · exact Or.inr ⟨_, h1⟩
                  · exact Or.inr ⟨_, List.mem_singleton.mp h2⟩
                · rw [if_neg hcg]
                  refine ⟨[.logAttempt (fetchLog s r), .examine s true,
                      .logAttempt (mappingErrorLog s em.msg r)],
                    [.record s ("Data mapping failed: " ++ em.msg)],
                    by simp, by simp,
                    fun entry he => Or.inr ⟨_, List.mem_singleton.mp he⟩,
                    ⟨[.examine s true, .logAttempt (mappingErrorLog s em.msg r)], rfl, rfl⟩⟩
            · rw [if_neg hk]
              dsimp only
              by_cases hcg : em.kind.caughtByRun = true
              · rw [if_pos hcg, handle_unexpected_fst]
                refine ⟨[.logAttempt (fetchLog s r), .examine s true,
                    .logAttempt (unexpectedErrorLog s em.msg)],
                  [.record s em.msg], by simp, by simp,
                  fun entry he => Or.inr ⟨_, List.mem_singleton.mp he⟩,
                  ⟨[.examine s true, .logAttempt (unexpectedErrorLog s em.msg)], rfl, rfl⟩⟩
              · rw [if_neg hcg]
                refine ⟨[.logAttempt (fetchLog s r), .examine s true], [],
                  by simp, by simp,
                  fun entry he => absurd he (List.not_mem_nil entry),
                  ⟨[.examine s true], rfl, rfl⟩⟩
          | ok md =>
            dsimp only
            cases hvd : md.is_valid with
            | false =>
              simp only [hvd, Bool.false_eq_true, if_false]
              refine ⟨[.logAttempt (fetchLog s r), .examine s true], [],
                by simp, by simp,
                fun entry he => absurd he (List.not_mem_nil entry),
                ⟨[.examine s true], rfl, rfl⟩⟩
            | true =>
              simp only [hvd, if_true]
              rw [mark_as_validated_of_valid md hvd]
              dsimp only
              unfold save_market_data
              cases hsv : c.md_save (markValidated md) with
              | error ex =>
                dsimp only
                by_cases hcg : ex.kind.caughtByRun = true
                · rw [if_pos hcg, handle_unexpected_fst]
                  refine ⟨[.logAttempt (fetchLog s r), .examine s true,
                      .logAttempt (unexpectedErrorLog s ex.msg)],
                    [.record s ex.msg], by simp, by simp,
                    fun entry he => Or.inr ⟨_, List.mem_singleton.mp he⟩,
                    ⟨[.examine s true, .logAttempt (unexpectedErrorLog s ex.msg)], rfl, rfl⟩⟩
                · rw [if_neg hcg]
                  refine ⟨[.logAttempt (fetchLog s r), .examine s true], [],
                    by simp, by simp,
                    fun entry he => absurd he (List.not_mem_nil entry),
                    ⟨[.examine s true], rfl, rfl⟩⟩
              | ok saved =>
                dsimp only
                cases hms : saved.mark_as_saved with
                | error ex =>
                  dsimp only
                  by_cases hcg : ex.kind.caughtByRun = true
                  · rw [if_pos hcg, handle_unexpected_fst]
                    refine ⟨[.logAttempt (fetchLog s r), .examine s true,
                        .logAttempt (unexpectedErrorLog s ex.msg)],
                      [.record s ex.msg], by simp, by simp,
                      fun entry he => Or.inr ⟨_, List.mem_singleton.mp he⟩,
                      ⟨[.examine s true, .logAttempt (unexpectedErrorLog s ex.msg)], rfl, rfl⟩⟩
                  · rw [if_neg hcg]
                    refine ⟨[.logAttempt (fetchLog s r), .examine s true], [],
                      by simp, by simp,
                      fun entry he => absurd he (List.not_mem_nil entry),
                      ⟨[.examine s true], rfl, rfl⟩⟩
                | ok saved2 =>
                  dsimp only
                  cases hup : c.md_update saved2 with
                  | error ex =>
                    dsimp only
                    by_cases hcg : ex.kind.caughtByRun = true
                    · rw [if_pos hcg, handle_unexpected_fst]
                      refine ⟨[.logAttempt (fetchLog s r), .examine s true,
                          .logAttempt (unexpectedErrorLog s ex.msg)],
                        [.record s ex.msg], by simp, by simp,
                        fun entry he => Or.inr ⟨_, List.mem_singleton.mp he⟩,
                        ⟨[.examine s true, .logAttempt (unexpectedErrorLog s ex.msg)], rfl, rfl⟩⟩
                    · rw [if_neg hcg]
                      refine ⟨[.logAttempt (fetchLog s r), .examine s true], [],
                        by simp, by simp,
                        fun entry he => absurd he (List.not_mem_nil entry),
                        ⟨[.examine s true], rfl, rfl⟩⟩
                  | ok w =>
                    refine ⟨[.logAttempt (fetchLog s r), .examine s true], [],
                      by simp, by simp,
                      fun entry he => absurd he (List.not_mem_nil entry),
                      ⟨[.examine s true], rfl, rfl⟩⟩

/-! ### C7: the audit log precedes the success check -/

/-- C7: for every symbol whose API call returns a (non-null) response,
the per-symbol step appends exactly one `fetch_market_data` audit-log
attempt — carrying the response's status code, its `is_successful` flag,
its payload and its execution time — and that attempt is the first
appended event, so it precedes the examination of the response's success
(which holds for successful and unsuccessful HTTP outcomes alike); when
the response is missing (or the call raises), no `fetch_market_data`
audit entry is written. -/
theorem audit_log_before_success (c : Collaborators) (s : String) (st : RunState) :
    ∃ tr, (step_symbol c s st).1.trace = st.trace ++ tr ∧
      (match c.get_market_data s with
       | .ok (Option.some r) =>
          (∃ tr', tr = TraceEvent.logAttempt (fetchLog s r) :: tr' ∧ fetchLogCount tr' = 0) ∧
          (fetchLog s r).operation = "fetch_market_data" ∧
          (fetchLog s r).status_code = Option.some r.status_code ∧
          (fetchLog s r).success = r.is_successful ∧
          (fetchLog s r).response_data = r.data ∧
          (fetchLog s r).execution_time_ms = Option.some r.execution_time_ms
       | _ => fetchLogCount tr = 0) := by
  obtain ⟨tr, fd, htr, _, _, hmatch⟩ := step_symbol_deltas c s st
  refine ⟨tr, htr, ?_⟩
  cases hg : c.get_market_data s with
  | error e0 =>
    rw [hg] at hmatch
    exact hmatch
  | ok opt =>
    cases opt with
    | none =>
      rw [hg] at hmatch
      exact hmatch
    | some r =>
      rw [hg] at hmatch
      exact ⟨hmatch, rfl, rfl, rfl, rfl, rfl⟩

/-! ### C10: the failed bucket is heterogeneous -/

/-- Failed bucket of a run result (empty if an exception escaped). -/
def failedOf : Except PyExc RunState → List FailedEntry
  | .ok st => st.failed
  | .error _ => []

/-- C10: the failed bucket mixes shapes. When the API port returns a
null response the bare symbol string is appended (the concrete run
witnesses a consumer encountering a plain string), and every entry any
step ever appends to `failed` is either that bare-symbol string (exactly
in the null-response case) or a `{"symbol", "error"}` record. -/
theorem failed_bucket_heterogeneous :
    failedOf (fetch_and_store_market_data cNullResp ["AAPL"]) = [FailedEntry.plain "AAPL"] ∧
    ∀ (c : Collaborators) (s : String) (st : RunState),
      ∀ entry ∈ (step_symbol c s st).1.failed,
        entry ∈ st.failed ∨
        (c.get_market_data s = .ok Option.none ∧ entry = FailedEntry.plain s) ∨
        ∃ msg, entry = FailedEntry.record s msg := by
  refine ⟨rfl, ?_⟩
  intro c s st entry he
  obtain ⟨tr, fd, _, hfd, hshape, _⟩ := step_symbol_deltas c s st
  rw [hfd] at he
  rcases List.mem_append.mp he with h1 | h2
  · exact Or.inl h1
  · rcases hshape entry h2 with h | h
    · exact Or.inr (Or.inl h)
    · exact Or.inr (Or.inr h)

/-- C10 witness: the plain-string entry produced by a null response is
classified by the theorem at a concrete step. -/
theorem failed_bucket_heterogeneous_w :
    FailedEntry.plain "AAPL" ∈ ({} : RunState).failed ∨
    (cNullResp.get_market_data "AAPL" = .ok Option.none ∧
      FailedEntry.plain "AAPL" = FailedEntry.plain "AAPL") ∨
    ∃ msg, FailedEntry.plain "AAPL" = FailedEntry.record "AAPL" msg :=
  failed_bucket_heterogeneous.2 cNullResp "AAPL" {} (FailedEntry.plain "AAPL") (by decide)

/-! ### C6: the use-case summary -/

/-- Supporting fact: with the service's `symbols` attribute assigned and
the service call completing normally, the use case's summary has
`total_requested = len(symbols)`, the three counts equal to the bucket
lengths, and `success_rate = successful_count/total_requested` when
`total_requested > 0` and `0` when `total_requested = 0` — the division
is guarded by the list's truthiness, so it never divides by zero. -/
theorem summary_correct (c : Collaborators) (symbols : List String) (st : RunState)
    (hok : fetch_and_store_market_data c symbols = .ok st) :
    ∃ r, FetchMarketDataUseCase.execute c (Option.some symbols) = .ok r ∧
      r.summary.total_requested = symbols.length ∧
      r.summary.successful_count = Option.some st.successful.length ∧
      r.summary.failed_count = Option.some st.failed.length ∧
      r.summary.validation_error_count = Option.some st.validation_errors.length ∧
      (0 < symbols.length →
        r.summary.success_rate = (st.successful.length : ℚ) / (symbols.length : ℚ)) ∧
      (symbols.length = 0 → r.summary.success_rate = 0) := by
  unfold FetchMarketDataUseCase.execute
  dsimp only
  rw [hok]
  refine ⟨_, rfl, rfl, rfl, rfl, rfl, ?_, ?_⟩
  · intro hpos
    rcases symbols with _ | ⟨a, as⟩
    · exact absurd hpos (by simp)
    · rfl
  · intro h0
    rcases symbols with _ | ⟨a, as⟩
    · rfl
    · exact absurd h0 (by simp)

/-- C6 code bug: the use case reads `self.market_data_service.symbols`,
an attribute that `MarketDataService.__init__` does not set and that no
code in the repository ever assigns, so the shipped `execute()` raises
`AttributeError` — uncaught by its `except (KeyError, ValueError)` —
before calling the service or computing any summary (first conjunct,
evaluated at concrete collaborators with the attribute unset, as in the
container's wiring). The claimed summary arithmetic is what the code
would produce had the attribute been assigned: the second conjunct
evaluates that hypothetical at a concrete one-symbol run (and
`summary_correct` proves it in general). -/
theorem execute_missing_symbols_attribute :
    FetchMarketDataUseCase.execute cNullResp Option.none = .error symbolsAttrError ∧
    symbolsAttrError.kind.caughtByRun = false ∧
    (∃ r, FetchMarketDataUseCase.execute cNullResp (Option.some ["AAPL"]) = .ok r ∧
      r.summary.total_requested = 1 ∧
      r.summary.successful_count = Option.some 0 ∧
      r.summary.failed_count = Option.some 1 ∧
      r.summary.validation_error_count = Option.some 0 ∧
      r.summary.success_rate = ((0 : ℕ) : ℚ) / ((1 : ℕ) : ℚ)) :=
  ⟨rfl, rfl, ⟨_, rfl, rfl, rfl, rfl, rfl, rfl⟩⟩
